import Mathlib

/-!
Shallow embedding of the Zircon `insntrace` (Intel Processor Trace) driver
from `src/system/dev/board/crosshatch/crosshatch-devices.c`, together with
proofs settling the frozen claims about it.

The C sources include the header `lib/zircon-internal/device/cpu-trace/intel-pt.h`,
which is not part of this repository snapshot; the constants it provides
(`IPT_TOPA_MAX_TABLE_ENTRIES`, the `IPT_CTL_*` masks, the ToPA entry layout and
the record sizes) are modelled from the spec, as marked below.  Everything else
is translated directly from the C file.

Machine integers are modelled as `Nat`; all arithmetic in the translated code
stays well inside 64 bits (sizes are bounded by `MAX_PER_TRACE_SPACE`), except
where an explicit `% 2 ^ 32` / `% 2 ^ 64` reproduces a C truncation.
External effects (the DMA allocator, the `zx_mtrace_control` syscall, CPU
count, handle duplication) are supplied by an explicit environment record, and
an operation's observable behaviour is a function of the device state and that
environment.
-/

namespace Insntrace

/-- Status space of the driver, mirroring the `zx_status_t` values it uses. -/
inductive ZxStatus where
  | ok
  | invalidArgs
  | badState
  | noResources
  | noMemory
  | notSupported
  | bufferTooSmall
  | alreadyBound
  | internal
  deriving DecidableEq, Repr

/-- `PAGE_SIZE` (the build requires it to be 4096, see the `#error` guard). -/
def PAGE_SIZE : Nat := 4096

/-- `PAGE_SIZE_SHIFT` from the C file. -/
def PAGE_SIZE_SHIFT : Nat := 12

/-- `MAX_PER_TRACE_SPACE` from the C file: 256 MiB. -/
def MAX_PER_TRACE_SPACE : Nat := 256 * 1024 * 1024

/-- `MAX_NUM_CHUNKS` from the C file. -/
def MAX_NUM_CHUNKS : Nat := 4096

/-- `MAX_CHUNK_ORDER` from the C file. -/
def MAX_CHUNK_ORDER : Nat := 8

/-- Modelled from the spec: `TABLE_ENTRIES` is "determined by the hardware
spec's ToPA table size (driven from a platform constant)"; a ToPA table is one
page of 64-bit words, so `IPT_TOPA_MAX_TABLE_ENTRIES = PAGE_SIZE / 8 = 512`.
The header `intel-pt.h` defining it is not in the repository snapshot. -/
def IPT_TOPA_MAX_TABLE_ENTRIES : Nat := 512

/-- Modelled from the spec (glossary: ToPA entries carry an END flag
"controlling wraparound"); bit 0 of a ToPA entry, from the missing
`intel-pt.h`. -/
def IPT_TOPA_ENTRY_END : Nat := 1

/-- Modelled from the spec (glossary: ToPA entries carry a STOP flag
"controlling termination"); bit 4 of a ToPA entry, from the missing
`intel-pt.h`. -/
def IPT_TOPA_ENTRY_STOP : Nat := 2 ^ 4

/-- Modelled from the spec: the physical-address portion of a ToPA entry is the
address with the low 12 bits (flag and size fields) cleared; from the missing
`intel-pt.h`. -/
def IPT_TOPA_ENTRY_PHYS_ADDR (pa : Nat) : Nat := pa / 4096 * 4096

/-- Modelled from the spec (§4.3: each entry word is
`phys_addr | (size_log2 << SIZE_SHIFT)`): the 4-bit size field, encoded as
`size_log2 - 12`, sits at bit 6; from the missing `intel-pt.h`. -/
def IPT_TOPA_ENTRY_SIZE (size_log2 : Nat) : Nat := (size_log2 - 12) <<< 6

/-- Modelled from the spec (§4.4: the walker sums `2^entry_size_field`):
inverse of `IPT_TOPA_ENTRY_SIZE`; from the missing `intel-pt.h`. -/
def IPT_TOPA_ENTRY_EXTRACT_SIZE (e : Nat) : Nat := 12 + ((e >>> 6) &&& 0xf)

/-- Modelled from the spec: maximum length of the trace vector, from the
missing `intel-pt.h`. -/
def IPT_MAX_NUM_TRACES : Nat := 64

/-- Modelled from the spec (`addr_ranges[MAX_ADDR_RANGES]` with two settable
ADDRk groups used by the driver); from the missing `intel-pt.h`. -/
def IPT_MAX_NUM_ADDR_RANGES : Nat := 2

/-- Modelled from the spec (§6: `mode: u32 (0=CpusMode,1=ThreadsMode)`). -/
def IPT_MODE_CPUS : Nat := 0

/-- Modelled from the spec (§6: `mode: u32 (0=CpusMode,1=ThreadsMode)`). -/
def IPT_MODE_THREADS : Nat := 1

/-! The `IPT_CTL_*` bit masks of the IA32_RTIT_CTL register, modelled from the
spec's §4.5 field list; the header defining their numeric positions is not in
the repository snapshot, so the architectural layout is used.  The claims'
truth does not depend on the particular positions, only on which groups the
capability booleans gate. -/

/-- Modelled from the spec: RTIT_CTL bit 0. -/
def IPT_CTL_TRACE_EN_MASK : Nat := 2 ^ 0
/-- Modelled from the spec: RTIT_CTL bit 1. -/
def IPT_CTL_CYC_EN_MASK : Nat := 2 ^ 1
/-- Modelled from the spec: RTIT_CTL bit 2. -/
def IPT_CTL_OS_ALLOWED_MASK : Nat := 2 ^ 2
/-- Modelled from the spec: RTIT_CTL bit 3. -/
def IPT_CTL_USER_ALLOWED_MASK : Nat := 2 ^ 3
/-- Modelled from the spec: RTIT_CTL bit 4. -/
def IPT_CTL_POWER_EVENT_EN_MASK : Nat := 2 ^ 4
/-- Modelled from the spec: RTIT_CTL bit 5. -/
def IPT_CTL_FUP_ON_PTW_MASK : Nat := 2 ^ 5
/-- Modelled from the spec: RTIT_CTL bit 7. -/
def IPT_CTL_CR3_FILTER_MASK : Nat := 2 ^ 7
/-- Modelled from the spec: RTIT_CTL bit 8. -/
def IPT_CTL_TOPA_MASK : Nat := 2 ^ 8
/-- Modelled from the spec: RTIT_CTL bit 9. -/
def IPT_CTL_MTC_EN_MASK : Nat := 2 ^ 9
/-- Modelled from the spec: RTIT_CTL bit 10. -/
def IPT_CTL_TSC_EN_MASK : Nat := 2 ^ 10
/-- Modelled from the spec: RTIT_CTL bit 11. -/
def IPT_CTL_DIS_RETC_MASK : Nat := 2 ^ 11
/-- Modelled from the spec: RTIT_CTL bit 12. -/
def IPT_CTL_PTW_EN_MASK : Nat := 2 ^ 12
/-- Modelled from the spec: RTIT_CTL bit 13. -/
def IPT_CTL_BRANCH_EN_MASK : Nat := 2 ^ 13
/-- Modelled from the spec: MTC_FREQ field, bits 14..17. -/
def IPT_CTL_MTC_FREQ_SHIFT : Nat := 14
/-- Modelled from the spec: MTC_FREQ field, bits 14..17. -/
def IPT_CTL_MTC_FREQ_MASK : Nat := 0xf <<< 14
/-- Modelled from the spec: CYC_THRESH field, bits 19..22. -/
def IPT_CTL_CYC_THRESH_SHIFT : Nat := 19
/-- Modelled from the spec: CYC_THRESH field, bits 19..22. -/
def IPT_CTL_CYC_THRESH_MASK : Nat := 0xf <<< 19
/-- Modelled from the spec: PSB_FREQ field, bits 24..27. -/
def IPT_CTL_PSB_FREQ_SHIFT : Nat := 24
/-- Modelled from the spec: PSB_FREQ field, bits 24..27. -/
def IPT_CTL_PSB_FREQ_MASK : Nat := 0xf <<< 24
/-- Modelled from the spec: ADDR0_CFG field, bits 32..35. -/
def IPT_CTL_ADDR0_MASK : Nat := 0xf <<< 32
/-- Modelled from the spec: ADDR1_CFG field, bits 36..39. -/
def IPT_CTL_ADDR1_MASK : Nat := 0xf <<< 36
/-- Modelled from the spec: ADDR2_CFG field, bits 40..43. -/
def IPT_CTL_ADDR2_MASK : Nat := 0xf <<< 40
/-- Modelled from the spec: ADDR3_CFG field, bits 44..47. -/
def IPT_CTL_ADDR3_MASK : Nat := 0xf <<< 44

/-- Bitwise complement within a 64-bit word, as C's `~` on a `uint64_t`. -/
def not64 (x : Nat) : Nat := (2 ^ 64 - 1) ^^^ x

/-- The immutable capability record populated by `insntrace_init_once` (the
`ipt_config_*` globals). -/
structure IptConfig where
  supported : Bool
  cr3_filtering : Bool
  psb : Bool
  ip_filtering : Bool
  mtc : Bool
  ptwrite : Bool
  power_events : Bool
  output_topa : Bool
  output_topa_multi : Bool
  num_addr_ranges : Nat
  mtc_freq_mask : Nat
  cyc_thresh_mask : Nat
  psb_freq_mask : Nat
  deriving DecidableEq, Repr

/-- One ToPA table: an `io_buffer_t` holding `IPT_TOPA_MAX_TABLE_ENTRIES`
64-bit words, with its physical address. -/
structure Topa where
  phys : Nat
  entries : List Nat
  deriving DecidableEq, Repr

/-- The `ipt_per_trace_state_t` record.  The `owner` union is modelled by its
raw word; a chunk `io_buffer_t` is represented by its physical address (its
contents are written only by hardware); a NULL `chunks`/`topas` pointer is
modelled as the empty list. -/
structure PerTrace where
  owner : Nat
  num_chunks : Nat
  chunk_order : Nat
  is_circular : Bool
  allocated : Bool
  assigned : Bool
  num_tables : Nat
  ctl : Nat
  status : Nat
  output_base : Nat
  output_mask_ptrs : Nat
  cr3_match : Nat
  addr_ranges : List (Nat × Nat)
  chunks : List Nat
  topas : List Topa
  deriving DecidableEq, Repr

/-- The all-zero `ipt_per_trace_state_t`, as produced by `memset`/`calloc`. -/
def zeroPerTrace : PerTrace :=
  { owner := 0, num_chunks := 0, chunk_order := 0, is_circular := false
    allocated := false, assigned := false, num_tables := 0
    ctl := 0, status := 0, output_base := 0, output_mask_ptrs := 0
    cr3_match := 0
    addr_ranges := List.replicate IPT_MAX_NUM_ADDR_RANGES (0, 0)
    chunks := [], topas := [] }

/-- The `insntrace_device_t` record (`lock` and `bti` carry no observable
state in the embedding).  `per_trace_state = none` models a NULL pointer. -/
structure Device where
  opened : Bool
  mode : Nat
  num_traces : Nat
  per_trace_state : Option (List PerTrace)
  active : Bool
  deriving DecidableEq, Repr

/-- The fixed-layout register block `zx_x86_pt_regs_t` exchanged with the
privileged channel. -/
structure PtRegs where
  ctl : Nat
  status : Nat
  output_base : Nat
  output_mask_ptrs : Nat
  cr3_match : Nat
  addr_ranges : List (Nat × Nat)
  deriving DecidableEq, Repr

/-- The environment of external collaborators: the DMA allocator, the
privileged `zx_mtrace_control` channel (whose request payloads it absorbs and
whose status and returned register blocks it chooses), the CPU count, handle
duplication, and the contents of uninitialised stack memory. -/
structure Env where
  chunksCallocOk : Bool
  chunkAlloc : Nat → ZxStatus × Nat
  topasCallocOk : Bool
  topaAlloc : Nat → ZxStatus × Nat
  traceCallocOk : Bool
  numCpus : Nat
  allocTraceResult : ZxStatus
  freeTraceResult : ZxStatus
  startResult : ZxStatus
  stopResult : ZxStatus
  stageResult : Nat → ZxStatus
  getDataResult : Nat → ZxStatus
  getDataRegs : Nat → PtRegs
  getInfoResult : ZxStatus
  dupResult : ZxStatus
  dupHandle : Nat
  stackJunk : Nat

/-- An environment in which every external call succeeds (used for concrete
runs); physical addresses are distinct and page-aligned. -/
def happyEnv : Env :=
  { chunksCallocOk := true
    chunkAlloc := fun i => (.ok, 0x100000 + i * 0x100000)
    topasCallocOk := true
    topaAlloc := fun i => (.ok, 0x20000000 + i * 0x1000)
    traceCallocOk := true
    numCpus := 1
    allocTraceResult := .ok
    freeTraceResult := .ok
    startResult := .ok
    stopResult := .ok
    stageResult := fun _ => .ok
    getDataResult := fun _ => .ok
    getDataRegs := fun _ =>
      { ctl := 0, status := 0, output_base := 0, output_mask_ptrs := 0
        cr3_match := 0, addr_ranges := List.replicate IPT_MAX_NUM_ADDR_RANGES (0, 0) }
    getInfoResult := .ok
    dupResult := .ok
    dupHandle := 99
    stackJunk := 0 }

/-! ### List-of-tables helpers -/

/-- Read the 64-bit word at slot `j` of table `t` (0 outside the tables). -/
def entryAt (topas : List Topa) (t j : Nat) : Nat :=
  ((topas.getD t ⟨0, []⟩).entries).getD j 0

/-- Write the 64-bit word at slot `j` of table `t` (no-op outside). -/
def setEntry (topas : List Topa) (t j : Nat) (v : Nat) : List Topa :=
  match topas.get? t with
  | some tab => topas.set t { tab with entries := tab.entries.set j v }
  | none => topas

/-- Physical address of table `t` (0 outside the tables). -/
def physAt (topas : List Topa) (t : Nat) : Nat := (topas.getD t ⟨0, []⟩).phys

/-! ### The ToPA builder (`make_topa`) -/

/-- Loop state of the chunk-filling loop in `make_topa`. -/
structure TopaFill where
  curr_table : Nat
  curr_idx : Nat
  last_entry : Option (Nat × Nat)
  topas : List Topa
  deriving Repr

/-- One iteration of the chunk loop of `make_topa`: write the data entry for a
chunk at the current position and advance, reserving the last slot of each
table for the END marker. -/
def topa_fill_step (run_len_log2 : Nat) (s : TopaFill) (chunk_pa : Nat) : TopaFill :=
  let val := IPT_TOPA_ENTRY_PHYS_ADDR chunk_pa |||
      IPT_TOPA_ENTRY_SIZE (run_len_log2 + PAGE_SIZE_SHIFT)
  let topas := setEntry s.topas s.curr_table s.curr_idx val
  let last := some (s.curr_table, s.curr_idx)
  if s.curr_idx ≥ IPT_TOPA_MAX_TABLE_ENTRIES - 2 then
    { curr_table := s.curr_table + 1, curr_idx := 0, last_entry := last, topas := topas }
  else
    { curr_table := s.curr_table, curr_idx := s.curr_idx + 1, last_entry := last, topas := topas }

/-- One iteration of the END-entry loop of `make_topa` for completed table
`i`: write an END entry in its last slot pointing at the next table (wrapping
to table 0 from the last table). -/
def topa_write_end (num_tables : Nat) (topas : List Topa) (i : Nat) : List Topa :=
  let next := if i = num_tables - 1 then 0 else i + 1
  let next_pa := physAt topas next
  setEntry topas i (IPT_TOPA_MAX_TABLE_ENTRIES - 1)
    (IPT_TOPA_ENTRY_PHYS_ADDR next_pa ||| IPT_TOPA_ENTRY_END)

/-- `make_topa`: fill data entries left-to-right across the tables, write END
entries for completed tables and for a possibly non-full last table, and OR
the STOP flag into the last data entry when the buffer is not circular. -/
def make_topa (pt : PerTrace) : PerTrace :=
  let s := pt.chunks.foldl (topa_fill_step pt.chunk_order)
    { curr_table := 0, curr_idx := 0, last_entry := none, topas := pt.topas }
  let topas := (List.range s.curr_table).foldl (topa_write_end pt.num_tables) s.topas
  let topas :=
    if s.curr_table < pt.num_tables then
      setEntry topas s.curr_table s.curr_idx
        (IPT_TOPA_ENTRY_PHYS_ADDR (physAt topas 0) ||| IPT_TOPA_ENTRY_END)
    else topas
  let topas :=
    match s.last_entry with
    | some (t, j) =>
      if !pt.is_circular then setEntry topas t j (entryAt topas t j ||| IPT_TOPA_ENTRY_STOP)
      else topas
    | none => topas
  { pt with topas := topas }

/-- `compute_topa_entry_count`, with the device argument dropped (it is
unused): the data-entry count plus one END entry per table of
`IPT_TOPA_MAX_TABLE_ENTRIES - 1` data entries. -/
def compute_topa_entry_count (num_chunks : Nat) : Nat :=
  let num_entries := num_chunks
  let num_end_entries := (num_entries + IPT_TOPA_MAX_TABLE_ENTRIES - 2) /
      (IPT_TOPA_MAX_TABLE_ENTRIES - 1)
  num_entries + num_end_entries

/-! ### The capture walker (`compute_capture_size`) -/

/-- One entry probe of the walker: on the matching (current-table,
`entry ≥ curr_idx`) position stop with the byte offset added (`Except.error`
models the C early `return`), otherwise accumulate `2^entry_size_field`. -/
def capture_entry_step (table_paddr curr_table_paddr curr_table_entry_idx curr_entry_offset : Nat)
    (entries : List Nat) (st : Except Nat Nat) (entry : Nat) : Except Nat Nat :=
  match st with
  | .error t => .error t
  | .ok total =>
    if table_paddr = curr_table_paddr ∧ entry ≥ curr_table_entry_idx then
      .error (total + curr_entry_offset)
    else
      .ok (total + 2 ^ IPT_TOPA_ENTRY_EXTRACT_SIZE (entries.getD entry 0))

/-- The walker's scan of one table's first `IPT_TOPA_MAX_TABLE_ENTRIES - 1`
entries. -/
def capture_table_scan (curr_table_paddr curr_table_entry_idx curr_entry_offset : Nat)
    (topa : Topa) (st : Except Nat Nat) : Except Nat Nat :=
  match st with
  | .error t => .error t
  | .ok total =>
    (List.range (IPT_TOPA_MAX_TABLE_ENTRIES - 1)).foldl
      (capture_entry_step topa.phys curr_table_paddr curr_table_entry_idx curr_entry_offset
        topa.entries)
      (.ok total)

/-- `compute_capture_size`: decode the saved `output_base` /
`output_mask_ptrs` registers and walk the tables until the stop position is
found; a traversal that never matches returns 0 (the "unreachable" branch). -/
def compute_capture_size (pt : PerTrace) : Nat :=
  let curr_table_paddr := pt.output_base
  let curr_table_entry_idx := pt.output_mask_ptrs % 2 ^ 32 >>> 7
  let curr_entry_offset := (pt.output_mask_ptrs >>> 32) % 2 ^ 32
  let r := (List.range pt.num_tables).foldl
    (fun st table =>
      capture_table_scan curr_table_paddr curr_table_entry_idx curr_entry_offset
        (pt.topas.getD table ⟨0, []⟩) st)
    (.ok 0)
  match r with
  | .error total => total
  | .ok _ => 0

/-! ### Buffer allocation and freeing (`x86_pt_alloc_buffer1` and friends) -/

/-- One iteration of the chunk-allocation loop of `x86_pt_alloc_buffer1`:
allocate chunk `i` (contiguous, aligned to `2^(PAGE_SIZE_SHIFT + order)`),
record it, and verify the alignment of the returned physical address. -/
def alloc_chunk_step (env : Env) (order : Nat) (pt : PerTrace) (i : Nat) :
    Except (ZxStatus × PerTrace) PerTrace :=
  let (status, pa) := env.chunkAlloc i
  if status ≠ .ok then .error (status, pt)
  else
    let alignment_log2 := PAGE_SIZE_SHIFT + order
    let pt := { pt with chunks := pt.chunks ++ [pa], num_chunks := pt.num_chunks + 1 }
    if pa % 2 ^ alignment_log2 ≠ 0 then .error (.internal, pt) else .ok pt

/-- One iteration of the ToPA-table allocation loop of `x86_pt_alloc_buffer1`:
allocate table `i` (one zero-filled page, with its physical address) and
record it; an allocator failure here is reported as `noMemory`. -/
def alloc_topa_step (env : Env) (pt : PerTrace) (i : Nat) :
    Except (ZxStatus × PerTrace) PerTrace :=
  let (status, pa) := env.topaAlloc i
  if status ≠ .ok then .error (.noMemory, pt)
  else
    .ok { pt with
      topas := pt.topas ++ [{ phys := pa, entries := List.replicate IPT_TOPA_MAX_TABLE_ENTRIES 0 }]
      num_tables := pt.num_tables + 1 }

/-- Short-circuiting fold used to translate the C `for` loops whose bodies
`return` on failure. -/
def foldE {α β : Type} (f : α → Nat → Except (β × α) α) (init : α) (l : List Nat) :
    Except (β × α) α :=
  l.foldl (fun st i => match st with
    | .error e => .error e
    | .ok a => f a i) (.ok init)

/-- Second half of `x86_pt_alloc_buffer1`, from the entry-count computation
on (the slot already carries its chunks, `chunk_order` and `is_circular`):
reject an entry count below 2 or (without `output_topa_multi`) above 2,
allocate the ToPA tables, and build the ToPA. -/
def x86_pt_alloc_buffer1_tables (caps : IptConfig) (env : Env) (pt : PerTrace) :
    ZxStatus × PerTrace :=
  let entry_count := compute_topa_entry_count pt.num_chunks
  let table_count := (entry_count + IPT_TOPA_MAX_TABLE_ENTRIES - 1) /
      IPT_TOPA_MAX_TABLE_ENTRIES
  if entry_count < 2 then (.invalidArgs, pt)
  else if !caps.output_topa_multi ∧ entry_count > 2 then (.notSupported, pt)
  else if !env.topasCallocOk then (.noMemory, pt)
  else
    match foldE (alloc_topa_step env) pt (List.range table_count) with
    | .error (st, pt) => (st, pt)
    | .ok pt => (.ok, make_topa pt)

/-- `x86_pt_alloc_buffer1`: zero the slot, allocate `num` aligned chunks,
record the order and circularity, and continue with the table construction.
The returned slot reflects whatever was recorded before a failure, as in the
C, so that the caller can free it. -/
def x86_pt_alloc_buffer1 (caps : IptConfig) (env : Env)
    (num order : Nat) (is_circular : Bool) : ZxStatus × PerTrace :=
  let pt := zeroPerTrace
  if !env.chunksCallocOk then (.noMemory, pt)
  else
    match foldE (alloc_chunk_step env order) pt (List.range num) with
    | .error (st, pt) => (st, pt)
    | .ok pt =>
      x86_pt_alloc_buffer1_tables caps env
        { pt with chunk_order := order, is_circular := is_circular }

/-- `x86_pt_free_buffer1`: release every chunk and every ToPA table (the
releases have no observable state here), NULL the two pointers, and clear
`allocated`.  Note that it leaves `num_chunks`, `num_tables` and
`chunk_order` untouched. -/
def x86_pt_free_buffer1 (pt : PerTrace) : PerTrace :=
  { pt with chunks := [], topas := [], allocated := false }

/-- The buffer-config record `ioctl_insntrace_buffer_config_t`. -/
structure BufferConfig where
  num_chunks : Nat
  chunk_order : Nat
  is_circular : Bool
  ctl : Nat
  cr3_match : Nat
  addr_ranges : List (Nat × Nat)
  deriving DecidableEq, Repr

/-- The settable-ctl mask computed by `x86_pt_alloc_buffer`: the base bits
plus the capability-gated groups. -/
def settable_ctl_mask (caps : IptConfig) : Nat :=
  let m := IPT_CTL_OS_ALLOWED_MASK ||| IPT_CTL_USER_ALLOWED_MASK |||
      IPT_CTL_TSC_EN_MASK ||| IPT_CTL_DIS_RETC_MASK ||| IPT_CTL_BRANCH_EN_MASK
  let m := if caps.ptwrite then m ||| IPT_CTL_PTW_EN_MASK ||| IPT_CTL_FUP_ON_PTW_MASK else m
  let m := if caps.cr3_filtering then m ||| IPT_CTL_CR3_FILTER_MASK else m
  let m := if caps.mtc then m ||| IPT_CTL_MTC_EN_MASK ||| IPT_CTL_MTC_FREQ_MASK else m
  let m := if caps.power_events then m ||| IPT_CTL_POWER_EVENT_EN_MASK else m
  let m := if caps.ip_filtering then
      let m := if caps.num_addr_ranges ≥ 1 then m ||| IPT_CTL_ADDR0_MASK else m
      let m := if caps.num_addr_ranges ≥ 2 then m ||| IPT_CTL_ADDR1_MASK else m
      let m := if caps.num_addr_ranges ≥ 3 then m ||| IPT_CTL_ADDR2_MASK else m
      if caps.num_addr_ranges ≥ 4 then m ||| IPT_CTL_ADDR3_MASK else m
    else m
  if caps.psb then
    m ||| IPT_CTL_CYC_EN_MASK ||| IPT_CTL_PSB_FREQ_MASK ||| IPT_CTL_CYC_THRESH_MASK
  else m

/-- The ctl-validation section of `x86_pt_alloc_buffer` (source lines
488-540): reject bits outside the settable mask, then each nonzero sub-field
whose `1 << value` bit is absent from the corresponding hardware mask.
Returns `some` of the rejection status, or `none` when the ctl passes. -/
def validate_ctl (caps : IptConfig) (ctl : Nat) : Option ZxStatus :=
  if ctl &&& not64 (settable_ctl_mask caps) ≠ 0 then some .invalidArgs
  else
    let mtc_freq := (ctl &&& IPT_CTL_MTC_FREQ_MASK) >>> IPT_CTL_MTC_FREQ_SHIFT
    if mtc_freq ≠ 0 ∧ (1 <<< mtc_freq) &&& caps.mtc_freq_mask = 0 then some .invalidArgs
    else
      let cyc_thresh := (ctl &&& IPT_CTL_CYC_THRESH_MASK) >>> IPT_CTL_CYC_THRESH_SHIFT
      if cyc_thresh ≠ 0 ∧ (1 <<< cyc_thresh) &&& caps.cyc_thresh_mask = 0 then some .invalidArgs
      else
        let psb_freq := (ctl &&& IPT_CTL_PSB_FREQ_MASK) >>> IPT_CTL_PSB_FREQ_SHIFT
        if psb_freq ≠ 0 ∧ (1 <<< psb_freq) &&& caps.psb_freq_mask = 0 then some .invalidArgs
        else none

/-- Linear scan for the first unallocated slot (the descriptor search loop of
`x86_pt_alloc_buffer`). -/
def find_free_descriptor (slots : List PerTrace) (num_traces : Nat) : Option Nat :=
  (List.range num_traces).find? (fun d => !(slots.getD d zeroPerTrace).allocated)

/-- The slot value written by a successful `x86_pt_alloc_buffer`: the built
buffer with the saved registers initialised from the request
(`output_base = phys(topas[0])`, `output_mask_ptrs = 0`) and `allocated`
set. -/
def alloc_slot_value (config : BufferConfig) (pt : PerTrace) : PerTrace :=
  { pt with
    ctl := config.ctl
    status := 0
    output_base := physAt pt.topas 0
    output_mask_ptrs := 0
    cr3_match := config.cr3_match
    addr_ranges := config.addr_ranges
    allocated := true }

/-- `x86_pt_alloc_buffer`: range-check `num_chunks`, `chunk_order` and the
total size, validate the requested ctl, find a free slot, build the buffer
(rolling the slot back on failure), initialise the slot's saved registers,
mark it allocated, and return its descriptor. -/
def x86_pt_alloc_buffer (caps : IptConfig) (env : Env) (dev : Device)
    (config : BufferConfig) : ZxStatus × Device × Option Nat :=
  if config.num_chunks = 0 ∨ config.num_chunks > MAX_NUM_CHUNKS then (.invalidArgs, dev, none)
  else if config.chunk_order > MAX_CHUNK_ORDER then (.invalidArgs, dev, none)
  else
    let chunk_pages := 2 ^ config.chunk_order
    let nr_pages := config.num_chunks * chunk_pages
    let total_per_trace := nr_pages * PAGE_SIZE
    if total_per_trace > MAX_PER_TRACE_SPACE then (.invalidArgs, dev, none)
    else
      match validate_ctl caps config.ctl with
      | some st => (st, dev, none)
      | none =>
        let slots := dev.per_trace_state.getD []
        match find_free_descriptor slots dev.num_traces with
        | none => (.noResources, dev, none)
        | some descriptor =>
          match x86_pt_alloc_buffer1 caps env config.num_chunks config.chunk_order
              config.is_circular with
          | (.ok, pt) =>
            let dev := { dev with
              per_trace_state := dev.per_trace_state.map
                (fun s => s.set descriptor (alloc_slot_value config pt)) }
            (.ok, dev, some descriptor)
          | (st, pt) =>
            let dev := { dev with
              per_trace_state := dev.per_trace_state.map
                (fun s => s.set descriptor (x86_pt_free_buffer1 pt)) }
            (st, dev, none)

/-- `x86_pt_free_buffer`: gated on the device being inactive and the slot
being allocated and not assigned. -/
def x86_pt_free_buffer (dev : Device) (descriptor : Nat) : ZxStatus × Device :=
  if dev.active then (.badState, dev)
  else if descriptor ≥ dev.num_traces then (.invalidArgs, dev)
  else
    let slots := dev.per_trace_state.getD []
    let pt := slots.getD descriptor zeroPerTrace
    if !pt.allocated then (.invalidArgs, dev)
    else if pt.assigned then (.badState, dev)
    else
      let dev := { dev with
        per_trace_state := dev.per_trace_state.map
          (fun s => s.set descriptor (x86_pt_free_buffer1 pt)) }
      (.ok, dev)

/-- `x86_pt_stage_trace_data`: build the register block (with the TOPA and
TRACE_EN bits added to the staged ctl) and forward it over the privileged
channel; the environment absorbs the payload and chooses the status. -/
def x86_pt_stage_trace_data (env : Env) (dev : Device) (descriptor : Nat) : ZxStatus :=
  if descriptor ≥ dev.num_traces then .invalidArgs
  else env.stageResult descriptor

/-- `x86_pt_get_trace_data`: fetch the register block for `descriptor` from
the privileged channel and store it into the slot. -/
def x86_pt_get_trace_data (env : Env) (dev : Device) (descriptor : Nat) : ZxStatus × Device :=
  if descriptor ≥ dev.num_traces then (.invalidArgs, dev)
  else
    match env.getDataResult descriptor with
    | .ok =>
      let regs := env.getDataRegs descriptor
      (.ok, { dev with per_trace_state := dev.per_trace_state.map (fun s =>
        s.set descriptor { s.getD descriptor zeroPerTrace with
          ctl := regs.ctl, status := regs.status, output_base := regs.output_base
          output_mask_ptrs := regs.output_mask_ptrs, cr3_match := regs.cr3_match
          addr_ranges := regs.addr_ranges }) })
    | st => (st, dev)

/-! ### ioctl handlers -/

/-- The trace-config record `ioctl_insntrace_trace_config_t`. -/
structure TraceConfigIo where
  mode : Nat
  num_traces : Nat
  deriving DecidableEq, Repr

/-- Modelled from the spec (§6 payload layouts): byte size of
`ioctl_insntrace_trace_config_t` (`{mode: u32, num_traces: u32}`). -/
def sizeof_trace_config : Nat := 8

/-- Modelled from the spec (§6): byte size of the buffer-config record. -/
def sizeof_buffer_config : Nat := 64

/-- Modelled from the spec (§6): byte size of a `u32` descriptor. -/
def sizeof_descriptor : Nat := 4

/-- Modelled from the spec (§6): byte size of the buffer-info reply
(`{capture_end: u64}`). -/
def sizeof_buffer_info : Nat := 8

/-- Modelled from the spec (§6): byte size of the chunk-handle request
(`{descriptor: u32, chunk_num: u32}`). -/
def sizeof_chunk_handle_req : Nat := 8

/-- Modelled from the spec (§6): byte size of a `u32` handle reply. -/
def sizeof_handle : Nat := 4

/-- Modelled from the spec (§6): byte size of the assign/release-thread-buffer
request (`{descriptor: u32, thread: handle}`). -/
def sizeof_assign_thread_buffer : Nat := 8

/-- `ipt_alloc_trace`: capability and single-allocation gates, request decode,
mode and `num_traces` checks, trace-vector allocation, and the privileged
ALLOC_TRACE action with rollback of the vector on failure.  Note the C sets
`dev->num_traces` before the `calloc` and never resets it. -/
def ipt_alloc_trace (caps : IptConfig) (env : Env) (dev : Device)
    (cmdlen : Nat) (config : TraceConfigIo) : ZxStatus × Device :=
  if !caps.supported then (.notSupported, dev)
  else if !caps.output_topa then (.notSupported, dev)
  else if dev.per_trace_state ≠ none then (.badState, dev)
  else if cmdlen ≠ sizeof_trace_config then (.invalidArgs, dev)
  else if config.mode = IPT_MODE_THREADS then (.notSupported, dev)
  else if config.mode ≠ IPT_MODE_CPUS then (.invalidArgs, dev)
  else if config.num_traces > IPT_MAX_NUM_TRACES then (.invalidArgs, dev)
  else if config.num_traces ≠ env.numCpus then (.invalidArgs, dev)
  else
    let dev := { dev with num_traces := config.num_traces }
    if !env.traceCallocOk then (.noMemory, dev)
    else
      let dev := { dev with
        per_trace_state := some (List.replicate config.num_traces zeroPerTrace) }
      if env.allocTraceResult ≠ .ok then
        (env.allocTraceResult, { dev with per_trace_state := none })
      else
        (.ok, { dev with mode := IPT_MODE_CPUS })

/-- `ipt_free_trace`: reject while active or while any slot is assigned; free
every allocated slot's buffers; issue the privileged FREE_TRACE.  When that
action fails the function returns `ok` while keeping the (now bufferless)
trace vector, despite the comment promising to flag the device as busted. -/
def ipt_free_trace (env : Env) (dev : Device) : ZxStatus × Device :=
  if dev.active then (.badState, dev)
  else
    let slots := dev.per_trace_state.getD []
    if (List.range dev.num_traces).any (fun i => (slots.getD i zeroPerTrace).assigned) then
      (.badState, dev)
    else
      let slots := (List.range dev.num_traces).foldl (fun s i =>
        let pt := s.getD i zeroPerTrace
        if pt.allocated then s.set i (x86_pt_free_buffer1 pt) else s) slots
      let dev := { dev with per_trace_state := dev.per_trace_state.map (fun _ => slots) }
      if env.freeTraceResult ≠ .ok then (.ok, dev)
      else (.ok, { dev with per_trace_state := none })

/-- `ipt_get_trace_config`: fill a stack-local config record and copy it to
the reply.  Only the `mode` field is ever assigned; the `num_traces` field of
the reply keeps the uninitialised stack contents, modelled by
`env.stackJunk`. -/
def ipt_get_trace_config (env : Env) (dev : Device) (replymax : Nat) :
    ZxStatus × Option TraceConfigIo :=
  if replymax < sizeof_trace_config then (.bufferTooSmall, none)
  else
    let mode := if dev.mode = IPT_MODE_CPUS then IPT_MODE_CPUS else IPT_MODE_THREADS
    (.ok, some { mode := mode, num_traces := env.stackJunk })

/-- `ipt_alloc_buffer`: request/reply size checks around
`x86_pt_alloc_buffer`. -/
def ipt_alloc_buffer (caps : IptConfig) (env : Env) (dev : Device)
    (cmdlen replymax : Nat) (config : BufferConfig) : ZxStatus × Device × Option Nat :=
  if cmdlen ≠ sizeof_buffer_config then (.invalidArgs, dev, none)
  else if replymax < sizeof_descriptor then (.bufferTooSmall, dev, none)
  else x86_pt_alloc_buffer caps env dev config

/-- `ipt_get_buffer_config`: size and slot checks, then the slot's saved
configuration. -/
def ipt_get_buffer_config (dev : Device) (cmdlen replymax descriptor : Nat) :
    ZxStatus × Option BufferConfig :=
  if cmdlen ≠ sizeof_descriptor then (.invalidArgs, none)
  else if replymax < sizeof_buffer_config then (.bufferTooSmall, none)
  else if descriptor ≥ dev.num_traces then (.invalidArgs, none)
  else
    let pt := (dev.per_trace_state.getD []).getD descriptor zeroPerTrace
    if !pt.allocated then (.invalidArgs, none)
    else
      let c : BufferConfig :=
        { num_chunks := pt.num_chunks, chunk_order := pt.chunk_order,
          is_circular := pt.is_circular, ctl := pt.ctl, cr3_match := pt.cr3_match,
          addr_ranges := pt.addr_ranges }
      (.ok, some c)

/-- `ipt_get_buffer_info`: size checks, the cpu-mode/inactive gate, slot
checks, then the capture size from the walker. -/
def ipt_get_buffer_info (dev : Device) (cmdlen replymax descriptor : Nat) :
    ZxStatus × Option Nat :=
  if cmdlen ≠ sizeof_descriptor then (.invalidArgs, none)
  else if replymax < sizeof_buffer_info then (.bufferTooSmall, none)
  else if dev.mode = IPT_MODE_CPUS ∧ dev.active then (.badState, none)
  else if descriptor ≥ dev.num_traces then (.invalidArgs, none)
  else
    let pt := (dev.per_trace_state.getD []).getD descriptor zeroPerTrace
    if !pt.allocated then (.invalidArgs, none)
    else (.ok, some (compute_capture_size pt))

/-- `ipt_get_chunk_handle`: size and slot checks, then a duplicate of the
chunk's VMO handle narrowed to the read-only rights set; the handle plumbing
is supplied by the environment. -/
def ipt_get_chunk_handle (env : Env) (dev : Device)
    (cmdlen replymax descriptor chunk_num : Nat) : ZxStatus × Option Nat :=
  if cmdlen ≠ sizeof_chunk_handle_req then (.invalidArgs, none)
  else if replymax < sizeof_handle then (.bufferTooSmall, none)
  else if descriptor ≥ dev.num_traces then (.invalidArgs, none)
  else
    let pt := (dev.per_trace_state.getD []).getD descriptor zeroPerTrace
    if !pt.allocated then (.invalidArgs, none)
    else if chunk_num ≥ pt.num_chunks then (.invalidArgs, none)
    else if env.getInfoResult ≠ .ok then (env.getInfoResult, none)
    else if env.dupResult ≠ .ok then (env.dupResult, none)
    else (.ok, some env.dupHandle)

/-- `ipt_free_buffer`: request size check around `x86_pt_free_buffer`. -/
def ipt_free_buffer (dev : Device) (cmdlen descriptor : Nat) : ZxStatus × Device :=
  if cmdlen ≠ sizeof_descriptor then (.invalidArgs, dev)
  else x86_pt_free_buffer dev descriptor

/-- The staging loop of `ipt_start`: for each cpu in turn, stage its registers
over the privileged channel (returning the failing status, with the already
staged slots left assigned, on failure) and mark the slot assigned to that
cpu. -/
def start_stage_loop (env : Env) : List Nat → Device → Except (ZxStatus × Device) Device
  | [], dev => .ok dev
  | cpu :: rest, dev =>
    match x86_pt_stage_trace_data env dev cpu with
    | .ok =>
      let dev := { dev with per_trace_state := dev.per_trace_state.map (fun s =>
        s.set cpu { s.getD cpu zeroPerTrace with owner := cpu, assigned := true }) }
      start_stage_loop env rest dev
    | st => .error (st, dev)

/-- `ipt_start`: gated on inactive cpu-mode with every slot allocated and
unassigned; stage every cpu's registers, then issue the privileged START and
set `active`. -/
def ipt_start (env : Env) (dev : Device) : ZxStatus × Device :=
  if dev.active then (.badState, dev)
  else if dev.mode ≠ IPT_MODE_CPUS then (.badState, dev)
  else
    let slots := dev.per_trace_state.getD []
    if !(List.range dev.num_traces).all (fun cpu =>
        (slots.getD cpu zeroPerTrace).allocated &&
        !(slots.getD cpu zeroPerTrace).assigned) then
      (.badState, dev)
    else
      match start_stage_loop env (List.range dev.num_traces) dev with
      | .error (st, dev) => (st, dev)
      | .ok dev =>
        if env.startResult ≠ .ok then (env.startResult, dev)
        else (.ok, { dev with active := true })

/-- The per-cpu unassign loop of `ipt_stop`: retrieve each cpu's register
snapshot back into its slot and clear the assignment, returning early on a
retrieval failure. -/
def stop_collect_loop (env : Env) : List Nat → Device → Except (ZxStatus × Device) Device
  | [], dev => .ok dev
  | cpu :: rest, dev =>
    match x86_pt_get_trace_data env dev cpu with
    | (.ok, dev) =>
      let dev := { dev with per_trace_state := dev.per_trace_state.map (fun s =>
        s.set cpu { s.getD cpu zeroPerTrace with assigned := false, owner := 0 }) }
      stop_collect_loop env rest dev
    | (st, dev) => .error (st, dev)

/-- `ipt_stop`: gated on being active; issue the privileged STOP, clear
`active`, and in cpu-mode collect each cpu's snapshot and unassign it. -/
def ipt_stop (env : Env) (dev : Device) : ZxStatus × Device :=
  if !dev.active then (.badState, dev)
  else if env.stopResult ≠ .ok then (env.stopResult, dev)
  else
    let dev := { dev with active := false }
    if dev.mode = IPT_MODE_CPUS then
      match stop_collect_loop env (List.range dev.num_traces) dev with
      | .error (st, dev) => (st, dev)
      | .ok dev => (.ok, dev)
    else (.ok, dev)

/-! ### The ioctl dispatcher (`insntrace_ioctl_worker`) -/

/-- A decoded ioctl request: the operation selector together with the decoded
request payload and the raw request/reply byte counts. -/
inductive IoctlReq where
  | allocTrace (cmdlen replymax : Nat) (config : TraceConfigIo)
  | freeTrace (cmdlen replymax : Nat)
  | getTraceConfig (cmdlen replymax : Nat)
  | allocBuffer (cmdlen replymax : Nat) (config : BufferConfig)
  | assignThreadBuffer (cmdlen replymax : Nat) (descriptor : Nat)
  | releaseThreadBuffer (cmdlen replymax : Nat) (descriptor : Nat)
  | getBufferConfig (cmdlen replymax : Nat) (descriptor : Nat)
  | getBufferInfo (cmdlen replymax : Nat) (descriptor : Nat)
  | getChunkHandle (cmdlen replymax : Nat) (descriptor chunk_num : Nat)
  | freeBuffer (cmdlen replymax : Nat) (descriptor : Nat)
  | start (cmdlen replymax : Nat)
  | stop (cmdlen replymax : Nat)
  deriving DecidableEq, Repr

/-- A reply payload produced by the dispatcher. -/
inductive IoctlReply where
  | empty
  | traceConfig (c : TraceConfigIo)
  | descriptor (d : Nat)
  | bufferConfig (c : BufferConfig)
  | bufferInfo (capture_end : Nat)
  | handle (h : Nat)
  deriving DecidableEq, Repr

/-- Whether a request selects `IOCTL_INSNTRACE_ALLOC_TRACE` (the one operation
exempt from the trace-vector gate). -/
def IoctlReq.isAllocTrace : IoctlReq → Bool
  | .allocTrace _ _ _ => true
  | _ => false

/-- `insntrace_ioctl_worker`: every operation except ALLOC_TRACE is gated on
the trace vector existing; then per-operation raw-size checks and dispatch,
exactly as the C `switch`. -/
def insntrace_ioctl_worker (caps : IptConfig) (env : Env) (dev : Device)
    (req : IoctlReq) : ZxStatus × Device × IoctlReply :=
  if !req.isAllocTrace ∧ dev.per_trace_state = none then (.badState, dev, .empty)
  else
    match req with
    | .allocTrace cmdlen replymax config =>
      if replymax ≠ 0 then (.invalidArgs, dev, .empty)
      else
        let (st, dev) := ipt_alloc_trace caps env dev cmdlen config
        (st, dev, .empty)
    | .freeTrace cmdlen replymax =>
      if cmdlen ≠ 0 ∨ replymax ≠ 0 then (.invalidArgs, dev, .empty)
      else
        let (st, dev) := ipt_free_trace env dev
        (st, dev, .empty)
    | .getTraceConfig cmdlen replymax =>
      if cmdlen ≠ 0 then (.invalidArgs, dev, .empty)
      else
        match ipt_get_trace_config env dev replymax with
        | (st, some c) => (st, dev, .traceConfig c)
        | (st, none) => (st, dev, .empty)
    | .allocBuffer cmdlen replymax config =>
      match ipt_alloc_buffer caps env dev cmdlen replymax config with
      | (st, dev, some d) => (st, dev, .descriptor d)
      | (st, dev, none) => (st, dev, .empty)
    | .assignThreadBuffer cmdlen replymax _ =>
      if replymax ≠ 0 then (.invalidArgs, dev, .empty)
      else if cmdlen ≠ sizeof_assign_thread_buffer then (.invalidArgs, dev, .empty)
      else (.notSupported, dev, .empty)
    | .releaseThreadBuffer cmdlen replymax _ =>
      if replymax ≠ 0 then (.invalidArgs, dev, .empty)
      else if cmdlen ≠ sizeof_assign_thread_buffer then (.invalidArgs, dev, .empty)
      else (.notSupported, dev, .empty)
    | .getBufferConfig cmdlen replymax descriptor =>
      match ipt_get_buffer_config dev cmdlen replymax descriptor with
      | (st, some c) => (st, dev, .bufferConfig c)
      | (st, none) => (st, dev, .empty)
    | .getBufferInfo cmdlen replymax descriptor =>
      match ipt_get_buffer_info dev cmdlen replymax descriptor with
      | (st, some n) => (st, dev, .bufferInfo n)
      | (st, none) => (st, dev, .empty)
    | .getChunkHandle cmdlen replymax descriptor chunk_num =>
      match ipt_get_chunk_handle env dev cmdlen replymax descriptor chunk_num with
      | (st, some h) => (st, dev, .handle h)
      | (st, none) => (st, dev, .empty)
    | .freeBuffer cmdlen replymax descriptor =>
      if replymax ≠ 0 then (.invalidArgs, dev, .empty)
      else
        let (st, dev) := ipt_free_buffer dev cmdlen descriptor
        (st, dev, .empty)
    | .start cmdlen replymax =>
      if cmdlen ≠ 0 ∨ replymax ≠ 0 then (.invalidArgs, dev, .empty)
      else
        let (st, dev) := ipt_start env dev
        (st, dev, .empty)
    | .stop cmdlen replymax =>
      if cmdlen ≠ 0 ∨ replymax ≠ 0 then (.invalidArgs, dev, .empty)
      else
        let (st, dev) := ipt_stop env dev
        (st, dev, .empty)

/-! ### Concrete fixtures used by counterexamples and witnesses -/

/-- A capability record with every feature available. -/
def capsAll : IptConfig :=
  { supported := true, cr3_filtering := true, psb := true, ip_filtering := true
    mtc := true, ptwrite := true, power_events := true, output_topa := true
    output_topa_multi := true, num_addr_ranges := 2
    mtc_freq_mask := 0xffff, cyc_thresh_mask := 0xffff, psb_freq_mask := 0xffff }

/-- A capability record for a CPU without Processor Trace support. -/
def capsUnsupported : IptConfig :=
  { capsAll with supported := false }

/-- A freshly bound device: no trace vector yet. -/
def devFresh : Device :=
  { opened := true, mode := IPT_MODE_CPUS, num_traces := 0
    per_trace_state := none, active := false }

/-- A device in cpu-mode with one zeroed trace slot. -/
def devOne : Device :=
  { opened := true, mode := IPT_MODE_CPUS, num_traces := 1
    per_trace_state := some [zeroPerTrace], active := false }

/-- A device in cpu-mode with two zeroed trace slots. -/
def devTwo : Device :=
  { opened := true, mode := IPT_MODE_CPUS, num_traces := 2
    per_trace_state := some [zeroPerTrace, zeroPerTrace], active := false }

/-- A buffer request for one page-sized circular chunk with an empty ctl. -/
def cfgOne : BufferConfig :=
  { num_chunks := 1, chunk_order := 0, is_circular := true, ctl := 0, cr3_match := 0
    addr_ranges := List.replicate IPT_MAX_NUM_ADDR_RANGES (0, 0) }

/-- A buffer request for two page-sized non-circular chunks. -/
def cfgTwoStop : BufferConfig :=
  { cfgOne with num_chunks := 2, is_circular := false }

/-! ### Generic helper lemmas -/

theorem foldE_frozen {α β : Type} (f : α → Nat → Except (β × α) α) (e : β × α)
    (l : List Nat) :
    l.foldl (fun st i => match st with
      | .error e => .error e
      | .ok a => f a i) (Except.error e) = .error e := by
  induction l with
  | nil => rfl
  | cons a l ih => simpa using ih

theorem foldE_cons {α β : Type} (f : α → Nat → Except (β × α) α) (init : α)
    (a : Nat) (l : List Nat) :
    foldE f init (a :: l) =
      match f init a with
      | .error e => .error e
      | .ok b => foldE f b l := by
  unfold foldE
  cases h : f init a with
  | error e => simpa [h] using foldE_frozen f e l
  | ok b => simp [h]

theorem lor_low_eq_add (a b k : Nat) (ha : a % 2 ^ k = 0) (hb : b < 2 ^ k) :
    a ||| b = a + b := by
  obtain ⟨q, rfl⟩ : ∃ q, a = 2 ^ k * q :=
    ⟨a / 2 ^ k, by
      rw [Nat.mul_comm]
      exact (Nat.div_mul_cancel (Nat.dvd_of_mod_eq_zero ha)).symm⟩
  apply Nat.eq_of_testBit_eq
  intro i
  rw [Nat.testBit_lor, Nat.testBit_mul_pow_two_add q hb]
  by_cases h : i < k
  · have h1 : (2 ^ k * q).testBit i = false := by
      have h0 : 2 ^ k * q = q <<< k := by rw [Nat.shiftLeft_eq]; ring
      rw [h0, Nat.testBit_shiftLeft]
      simp only [Bool.and_eq_false_imp, decide_eq_true_eq]
      intro hki
      omega
    simp [h1, if_pos h]
  · have h2 : b.testBit i = false := by
      apply Nat.testBit_lt_two_pow
      calc b < 2 ^ k := hb
        _ ≤ 2 ^ i := Nat.pow_le_pow_right (by norm_num) (by omega)
    have h3 : (2 ^ k * q).testBit i = q.testBit (i - k) := by
      have h0 : 2 ^ k * q = q <<< k := by rw [Nat.shiftLeft_eq]; ring
      rw [h0, Nat.testBit_shiftLeft]
      rw [decide_eq_true (by omega : i ≥ k)]
      simp
    simp [h2, h3, if_neg h]

/-! ### Shape of a successful buffer allocation -/

theorem chunk_loop_fields (env : Env) (o : Nat) :
    ∀ (l : List Nat) (pt pt' : PerTrace),
      foldE (alloc_chunk_step env o) pt l = .ok pt' →
      pt'.num_chunks = pt.num_chunks + l.length ∧
      pt'.chunks.length = pt.chunks.length + l.length ∧
      pt'.chunk_order = pt.chunk_order ∧ pt'.is_circular = pt.is_circular ∧
      pt'.topas = pt.topas ∧ pt'.num_tables = pt.num_tables := by
  intro l
  induction l with
  | nil =>
    intro pt pt' h
    simp only [foldE, List.foldl] at h
    cases h
    simp
  | cons a l ih =>
    intro pt pt' h
    rw [foldE_cons] at h
    cases ha : alloc_chunk_step env o pt a with
    | error e => rw [ha] at h; cases h
    | ok pt1 =>
      rw [ha] at h
      obtain ⟨h1, h2, h3, h4, h5, h6⟩ := ih pt1 pt' h
      unfold alloc_chunk_step at ha
      rcases hc : env.chunkAlloc a with ⟨status, pa⟩
      rw [hc] at ha
      simp only at ha
      by_cases hok : status ≠ ZxStatus.ok
      · rw [if_pos hok] at ha; cases ha
      · rw [if_neg hok] at ha
        by_cases hal : pa % 2 ^ (PAGE_SIZE_SHIFT + o) ≠ 0
        · rw [if_pos hal] at ha; cases ha
        · rw [if_neg hal] at ha
          cases ha
          simp only [List.length_append, List.length_cons, List.length_nil] at h1 h2 ⊢
          exact ⟨by omega, by omega, h3, h4, h5, h6⟩

theorem chunk_loop_error_status (env : Env) (o : Nat) :
    ∀ (l : List Nat) (pt pt0 : PerTrace) (st : ZxStatus),
      foldE (alloc_chunk_step env o) pt l = .error (st, pt0) → st ≠ .ok := by
  intro l
  induction l with
  | nil =>
    intro pt pt0 st h
    simp only [foldE, List.foldl] at h
    cases h
  | cons a l ih =>
    intro pt pt0 st h
    rw [foldE_cons] at h
    cases ha : alloc_chunk_step env o pt a with
    | error e =>
      rw [ha] at h
      cases h
      unfold alloc_chunk_step at ha
      rcases hc : env.chunkAlloc a with ⟨status, pa⟩
      rw [hc] at ha
      simp only at ha
      by_cases hok : status ≠ ZxStatus.ok
      · rw [if_pos hok] at ha
        cases ha
        exact hok
      · rw [if_neg hok] at ha
        by_cases hal : pa % 2 ^ (PAGE_SIZE_SHIFT + o) ≠ 0
        · rw [if_pos hal] at ha
          cases ha
          simp
        · rw [if_neg hal] at ha; cases ha
    | ok pt1 =>
      rw [ha] at h
      exact ih pt1 pt0 st h

theorem topa_loop_fields (env : Env) :
    ∀ (l : List Nat) (pt pt' : PerTrace),
      foldE (alloc_topa_step env) pt l = .ok pt' →
      pt'.num_tables = pt.num_tables + l.length ∧
      pt'.topas.length = pt.topas.length + l.length ∧
      (∀ tab ∈ pt'.topas,
        tab ∈ pt.topas ∨ tab.entries = List.replicate IPT_TOPA_MAX_TABLE_ENTRIES 0) ∧
      pt'.num_chunks = pt.num_chunks ∧ pt'.chunks = pt.chunks ∧
      pt'.chunk_order = pt.chunk_order ∧ pt'.is_circular = pt.is_circular := by
  intro l
  induction l with
  | nil =>
    intro pt pt' h
    simp only [foldE, List.foldl] at h
    cases h
    exact ⟨rfl, rfl, fun tab htab => Or.inl htab, rfl, rfl, rfl, rfl⟩
  | cons a l ih =>
    intro pt pt' h
    rw [foldE_cons] at h
    cases ha : alloc_topa_step env pt a with
    | error e => rw [ha] at h; cases h
    | ok pt1 =>
      rw [ha] at h
      obtain ⟨h1, h2, h3, h4, h5, h6, h7⟩ := ih pt1 pt' h
      unfold alloc_topa_step at ha
      rcases hc : env.topaAlloc a with ⟨status, pa⟩
      rw [hc] at ha
      simp only at ha
      by_cases hok : status ≠ ZxStatus.ok
      · rw [if_pos hok] at ha; cases ha
      · rw [if_neg hok] at ha
        cases ha
        simp only [List.length_append, List.length_cons, List.length_nil] at h1 h2 ⊢
        refine ⟨by omega, by omega, ?_, h4, h5, h6, h7⟩
        intro tab htab
        rcases h3 tab htab with hm | hm
        · rcases List.mem_append.mp hm with hm1 | hm1
          · exact Or.inl hm1
          · right
            rcases List.mem_singleton.mp hm1 with rfl
            rfl
        · exact Or.inr hm

theorem topa_loop_error_status (env : Env) :
    ∀ (l : List Nat) (pt pt0 : PerTrace) (st : ZxStatus),
      foldE (alloc_topa_step env) pt l = .error (st, pt0) → st ≠ .ok := by
  intro l
  induction l with
  | nil =>
    intro pt pt0 st h
    simp only [foldE, List.foldl] at h
    cases h
  | cons a l ih =>
    intro pt pt0 st h
    rw [foldE_cons] at h
    cases ha : alloc_topa_step env pt a with
    | error e =>
      rw [ha] at h
      cases h
      unfold alloc_topa_step at ha
      rcases hc : env.topaAlloc a with ⟨status, pa⟩
      rw [hc] at ha
      simp only at ha
      by_cases hok : status ≠ ZxStatus.ok
      · rw [if_pos hok] at ha
        cases ha
        simp
      · rw [if_neg hok] at ha; cases ha
    | ok pt1 =>
      rw [ha] at h
      exact ih pt1 pt0 st h

/-- The ToPA table count computed by `x86_pt_alloc_buffer1` from the entry
count. -/
def topa_table_count (num_chunks : Nat) : Nat :=
  (compute_topa_entry_count num_chunks + IPT_TOPA_MAX_TABLE_ENTRIES - 1) /
    IPT_TOPA_MAX_TABLE_ENTRIES

/-- Inversion of a successful `x86_pt_alloc_buffer1_tables`: the result is
`make_topa` of the input slot extended with `topa_table_count` zero-filled
tables. -/
theorem alloc_buffer1_tables_ok_inversion (caps : IptConfig) (env : Env)
    (pt res : PerTrace)
    (h : x86_pt_alloc_buffer1_tables caps env pt = (.ok, res)) :
    ∃ pt2 : PerTrace, res = make_topa pt2 ∧
      pt2.num_tables = pt.num_tables + topa_table_count pt.num_chunks ∧
      pt2.topas.length = pt.topas.length + topa_table_count pt.num_chunks ∧
      (∀ tab ∈ pt2.topas,
        tab ∈ pt.topas ∨ tab.entries = List.replicate IPT_TOPA_MAX_TABLE_ENTRIES 0) ∧
      pt2.num_chunks = pt.num_chunks ∧ pt2.chunks = pt.chunks ∧
      pt2.chunk_order = pt.chunk_order ∧ pt2.is_circular = pt.is_circular ∧
      2 ≤ compute_topa_entry_count pt.num_chunks := by
  unfold x86_pt_alloc_buffer1_tables at h
  by_cases hec : compute_topa_entry_count pt.num_chunks < 2
  · rw [if_pos hec] at h
    simp at h
  · rw [if_neg hec] at h
    by_cases hmulti : !caps.output_topa_multi ∧ compute_topa_entry_count pt.num_chunks > 2
    · rw [if_pos hmulti] at h
      simp at h
    · rw [if_neg hmulti] at h
      by_cases htcal : (!env.topasCallocOk) = true
      · rw [if_pos htcal] at h
        simp at h
      · rw [if_neg htcal] at h
        cases htfold : foldE (alloc_topa_step env) pt
            (List.range ((compute_topa_entry_count pt.num_chunks +
              IPT_TOPA_MAX_TABLE_ENTRIES - 1) / IPT_TOPA_MAX_TABLE_ENTRIES)) with
        | error e =>
          obtain ⟨st, pt0⟩ := e
          rw [htfold] at h
          have hne := topa_loop_error_status env _ _ _ _ htfold
          simp only [Prod.mk.injEq] at h
          exact absurd h.1 hne
        | ok pt2 =>
          rw [htfold] at h
          simp only [Prod.mk.injEq, true_and] at h
          obtain ⟨g1, g2, g3, g4, g5, g6, g7⟩ := topa_loop_fields env _ _ _ htfold
          simp only [List.length_range] at g1 g2
          refine ⟨pt2, h.symm, ?_, ?_, g3, g4, g5, g6, g7, by omega⟩
          · rw [g1]; rfl
          · rw [g2]; rfl

/-- Inversion of a successful `x86_pt_alloc_buffer1`: the result is
`make_topa` of a slot holding the `num` allocated chunks and
`topa_table_count num` zero-filled tables. -/
theorem alloc_buffer1_ok_inversion (caps : IptConfig) (env : Env)
    (n o : Nat) (circ : Bool) (pt : PerTrace)
    (h : x86_pt_alloc_buffer1 caps env n o circ = (.ok, pt)) :
    ∃ pt2 : PerTrace, pt = make_topa pt2 ∧
      pt2.num_chunks = n ∧ pt2.chunks.length = n ∧
      pt2.chunk_order = o ∧ pt2.is_circular = circ ∧
      pt2.num_tables = topa_table_count n ∧ pt2.topas.length = topa_table_count n ∧
      (∀ tab ∈ pt2.topas, tab.entries = List.replicate IPT_TOPA_MAX_TABLE_ENTRIES 0) ∧
      1 ≤ n := by
  unfold x86_pt_alloc_buffer1 at h
  by_cases hcal : (!env.chunksCallocOk) = true
  · rw [if_pos hcal] at h
    simp at h
  · rw [if_neg hcal] at h
    cases hfold : foldE (alloc_chunk_step env o) zeroPerTrace (List.range n) with
    | error e =>
      obtain ⟨st, pt0⟩ := e
      rw [hfold] at h
      have hne := chunk_loop_error_status env o _ _ _ _ hfold
      simp only [Prod.mk.injEq] at h
      exact absurd h.1 hne
    | ok pt1 =>
      rw [hfold] at h
      obtain ⟨h1, h2, _, _, h5, h6⟩ := chunk_loop_fields env o _ _ _ hfold
      simp only [List.length_range] at h1 h2
      have hz1 : zeroPerTrace.num_chunks = 0 := rfl
      have hz2 : zeroPerTrace.chunks.length = 0 := rfl
      have hz3 : zeroPerTrace.topas = [] := rfl
      have hnum1 : pt1.num_chunks = n := by omega
      obtain ⟨pt2, hres, g1, g2, g3, g4, g5, g6, g7, gec⟩ :=
        alloc_buffer1_tables_ok_inversion caps env _ _ h
      simp only at g1 g2 g3 g4 g5 g6 g7 gec
      rw [hnum1] at g1 g2 gec
      have hn1 : 1 ≤ n := by
        by_contra hn0
        have hn0' : n = 0 := by omega
        rw [hn0'] at gec
        exact absurd gec (by decide)
      refine ⟨pt2, hres, ?_, ?_, ?_, ?_, ?_, ?_, ?_, hn1⟩
      · rw [g4, hnum1]
      · rw [g5]
        omega
      · exact g6
      · exact g7
      · rw [g1, h6]
        have hz4 : zeroPerTrace.num_tables = 0 := rfl
        omega
      · rw [g2, h5, hz3]
        simp
      · intro tab htab
        rcases g3 tab htab with hm | hm
        · rw [h5, hz3] at hm
          cases hm
        · exact hm

theorem make_topa_num_tables (pt : PerTrace) : (make_topa pt).num_tables = pt.num_tables := rfl

theorem make_topa_num_chunks (pt : PerTrace) : (make_topa pt).num_chunks = pt.num_chunks := rfl

theorem make_topa_chunk_order (pt : PerTrace) : (make_topa pt).chunk_order = pt.chunk_order := rfl

theorem make_topa_is_circular (pt : PerTrace) : (make_topa pt).is_circular = pt.is_circular := rfl

theorem make_topa_chunks (pt : PerTrace) : (make_topa pt).chunks = pt.chunks := rfl

/-- Inversion of a successful `x86_pt_alloc_buffer`: a free slot was found and
filled with the built buffer and the requested register values. -/
theorem alloc_buffer_ok_inversion (caps : IptConfig) (env : Env) (dev : Device)
    (config : BufferConfig) (dev' : Device) (d : Nat)
    (h : x86_pt_alloc_buffer caps env dev config = (.ok, dev', some d)) :
    ∃ pt : PerTrace,
      x86_pt_alloc_buffer1 caps env config.num_chunks config.chunk_order config.is_circular
        = (.ok, pt) ∧
      d < dev.num_traces ∧
      dev'.per_trace_state = dev.per_trace_state.map
        (fun s => s.set d (alloc_slot_value config pt)) ∧
      dev'.num_traces = dev.num_traces ∧
      config.chunk_order ≤ MAX_CHUNK_ORDER := by
  unfold x86_pt_alloc_buffer at h
  by_cases h1 : config.num_chunks = 0 ∨ config.num_chunks > MAX_NUM_CHUNKS
  · rw [if_pos h1] at h
    simp at h
  · rw [if_neg h1] at h
    by_cases h2 : config.chunk_order > MAX_CHUNK_ORDER
    · rw [if_pos h2] at h
      simp at h
    · rw [if_neg h2] at h
      simp only at h
      by_cases h3 : config.num_chunks * 2 ^ config.chunk_order * PAGE_SIZE >
          MAX_PER_TRACE_SPACE
      · rw [if_pos h3] at h
        simp at h
      · rw [if_neg h3] at h
        cases hv : validate_ctl caps config.ctl with
        | some st =>
          rw [hv] at h
          simp at h
        | none =>
          rw [hv] at h
          cases hf : find_free_descriptor (dev.per_trace_state.getD []) dev.num_traces with
          | none =>
            rw [hf] at h
            simp at h
          | some descriptor =>
            rw [hf] at h
            have hd : descriptor < dev.num_traces := by
              have hmem := List.mem_of_find?_eq_some hf
              exact List.mem_range.mp hmem
            rcases ha : x86_pt_alloc_buffer1 caps env config.num_chunks config.chunk_order
                config.is_circular with ⟨st, pt⟩
            rw [ha] at h
            cases st with
            | ok =>
              simp only [Prod.mk.injEq, Option.some.injEq] at h
              obtain ⟨_, hdev, hdd⟩ := h
              subst hdd
              refine ⟨pt, rfl, hd, ?_, ?_, by omega⟩
              · rw [← hdev]
              · rw [← hdev]
            | invalidArgs => simp at h
            | badState => simp at h
            | noResources => simp at h
            | noMemory => simp at h
            | notSupported => simp at h
            | bufferTooSmall => simp at h
            | alreadyBound => simp at h
            | internal => simp at h

/-- The slot written by a successful `x86_pt_alloc_buffer`, extracted from the
updated device. -/
theorem alloc_buffer_ok_slot (caps : IptConfig) (env : Env) (dev : Device)
    (config : BufferConfig) (dev' : Device) (d : Nat)
    (h : x86_pt_alloc_buffer caps env dev config = (.ok, dev', some d))
    (hlen : dev.num_traces ≤ (dev.per_trace_state.getD []).length) :
    ∃ pt : PerTrace,
      x86_pt_alloc_buffer1 caps env config.num_chunks config.chunk_order config.is_circular
        = (.ok, pt) ∧
      (dev'.per_trace_state.getD []).getD d zeroPerTrace =
        alloc_slot_value config pt ∧
      config.chunk_order ≤ MAX_CHUNK_ORDER := by
  obtain ⟨pt, ha, hd, hdev, _, hord⟩ := alloc_buffer_ok_inversion caps env dev config dev' d h
  refine ⟨pt, ha, ?_, hord⟩
  cases hps : dev.per_trace_state with
  | none =>
    rw [hps] at hlen
    simp only [Option.getD_none, List.length_nil] at hlen
    omega
  | some s =>
    rw [hps] at hlen hdev
    simp only [Option.getD_some] at hlen
    have hmap : Option.map (fun l => l.set d (alloc_slot_value config pt)) (some s) =
        some (s.set d (alloc_slot_value config pt)) := rfl
    rw [hmap] at hdev
    rw [hdev]
    simp only [Option.getD_some]
    rw [List.getD_eq_getElem?_getD, List.getElem?_set_self (by omega)]
    rfl

/-! ### C10: the computed entry count is always at least `num_chunks + 1` -/

/-- C10: for every `num_chunks` accepted by the range check (`num_chunks ≥ 1`)
the computed ToPA entry count is at least `num_chunks + 1`, hence at least 2,
so the `entry_count < 2` rejection in `x86_pt_alloc_buffer1` cannot fire. -/
theorem C10_entry_count_lower_bound (n : Nat) (h : 1 ≤ n) :
    n + 1 ≤ compute_topa_entry_count n ∧ 2 ≤ compute_topa_entry_count n ∧
    ¬ compute_topa_entry_count n < 2 := by
  simp only [compute_topa_entry_count, IPT_TOPA_MAX_TABLE_ENTRIES]
  omega

theorem C10_entry_count_lower_bound_witness :
    1 + 1 ≤ compute_topa_entry_count 1 ∧ 2 ≤ compute_topa_entry_count 1 ∧
    ¬ compute_topa_entry_count 1 < 2 :=
  C10_entry_count_lower_bound 1 (by decide)

/-! ### C1: table-count formula and the entry-count rejection -/

/-- The spec's stated END-entry count,
`num_end_entries = ceil((num_chunks - 1) / (TABLE_ENTRIES - 1))`, written from
the spec's words for comparison with the code's `compute_topa_entry_count`
(which uses `ceil(num_chunks / (TABLE_ENTRIES - 1))`). -/
def spec_num_end_entries (num_chunks : Nat) : Nat :=
  (num_chunks - 1 + (IPT_TOPA_MAX_TABLE_ENTRIES - 2)) / (IPT_TOPA_MAX_TABLE_ENTRIES - 1)

set_option maxRecDepth 100000 in
/-- C1 counterexample: a request for one chunk has a spec-side total entry
count of 1 (below 2), yet `x86_pt_alloc_buffer` accepts it, because the code
counts `ceil(num_chunks/(TABLE_ENTRIES-1))` END entries and computes a total
of 2. -/
theorem C1_counterexample :
    cfgOne.num_chunks + spec_num_end_entries cfgOne.num_chunks < 2 ∧
    (x86_pt_alloc_buffer capsAll happyEnv devOne cfgOne).1 = ZxStatus.ok := by
  constructor
  · decide
  · decide

/-- C1 (amended): the slot written by a successful `alloc_buffer` has
`num_tables = ceil((num_chunks + num_end_entries) / TABLE_ENTRIES)` with the
spec's `num_end_entries = ceil((num_chunks - 1)/(TABLE_ENTRIES - 1))` (the
code's differing END count yields the same table count); and the builder
rejects with `InvalidArgs` exactly the requests whose computed entry count
(`num_chunks + ceil(num_chunks/(TABLE_ENTRIES-1))`) is below 2, which happens
only for `num_chunks = 0`. -/
theorem C1_table_count_formula :
    (∀ (caps : IptConfig) (env : Env) (dev : Device) (config : BufferConfig)
      (dev' : Device) (d : Nat),
      x86_pt_alloc_buffer caps env dev config = (.ok, dev', some d) →
      dev.num_traces ≤ (dev.per_trace_state.getD []).length →
      ((dev'.per_trace_state.getD []).getD d zeroPerTrace).num_tables =
        (config.num_chunks + spec_num_end_entries config.num_chunks +
          (IPT_TOPA_MAX_TABLE_ENTRIES - 1)) / IPT_TOPA_MAX_TABLE_ENTRIES) ∧
    (∀ (caps : IptConfig) (env : Env) (o : Nat) (circ : Bool),
      env.chunksCallocOk = true →
      compute_topa_entry_count 0 < 2 ∧
      (x86_pt_alloc_buffer1 caps env 0 o circ).1 = ZxStatus.invalidArgs) ∧
    (∀ n : Nat, compute_topa_entry_count n < 2 → n = 0) := by
  refine ⟨?_, ?_, ?_⟩
  · intro caps env dev config dev' d h hlen
    obtain ⟨pt, ha, hslot, _⟩ := alloc_buffer_ok_slot caps env dev config dev' d h hlen
    obtain ⟨pt2, hmk, hc1, _, _, _, ht1, _, _, hn1⟩ :=
      alloc_buffer1_ok_inversion caps env _ _ _ _ ha
    rw [hslot]
    have hfield : (alloc_slot_value config pt).num_tables = pt.num_tables := rfl
    rw [hfield, hmk, make_topa_num_tables, ht1]
    simp only [topa_table_count, compute_topa_entry_count, spec_num_end_entries,
      IPT_TOPA_MAX_TABLE_ENTRIES]
    omega
  · intro caps env o circ hcal
    refine ⟨by decide, ?_⟩
    unfold x86_pt_alloc_buffer1
    rw [if_neg (by simp [hcal])]
    have hfold : foldE (alloc_chunk_step env o) zeroPerTrace (List.range 0) =
        .ok zeroPerTrace := rfl
    rw [hfold]
    show (x86_pt_alloc_buffer1_tables caps env
      { zeroPerTrace with chunk_order := o, is_circular := circ }).1 = ZxStatus.invalidArgs
    unfold x86_pt_alloc_buffer1_tables
    have hc : compute_topa_entry_count
        ({ zeroPerTrace with chunk_order := o, is_circular := circ } : PerTrace).num_chunks
          < 2 := by
      simp [zeroPerTrace, compute_topa_entry_count, IPT_TOPA_MAX_TABLE_ENTRIES]
    rw [if_pos hc]
  · intro n h
    simp only [compute_topa_entry_count, IPT_TOPA_MAX_TABLE_ENTRIES] at h
    omega

/-- The device after a successful one-chunk allocation in slot 0. -/
def devAfterAllocOne : Device := (x86_pt_alloc_buffer capsAll happyEnv devOne cfgOne).2.1

set_option maxRecDepth 100000 in
theorem C1_table_count_formula_witness :
    ((devAfterAllocOne.per_trace_state.getD []).getD 0 zeroPerTrace).num_tables =
      (cfgOne.num_chunks + spec_num_end_entries cfgOne.num_chunks +
        (IPT_TOPA_MAX_TABLE_ENTRIES - 1)) / IPT_TOPA_MAX_TABLE_ENTRIES :=
  C1_table_count_formula.1 capsAll happyEnv devOne cfgOne devAfterAllocOne 0
    (by decide) (by decide)

/-! ### C3: `get_trace_config` never writes `num_traces` into the reply -/

/-- C3 (code bug): with traces present (`num_traces = 2`) and a large enough
reply, `ipt_get_trace_config` succeeds and fills in `mode`, but the reply's
`num_traces` field is whatever was on the stack (`env.stackJunk`, here 0) —
the function never reads `dev.num_traces`, contradicting the declared
`{mode, num_traces}` reply. -/
theorem C3_get_trace_config_junk :
    devTwo.num_traces = 2 ∧
    ipt_get_trace_config happyEnv devTwo sizeof_trace_config =
      (.ok, some { mode := IPT_MODE_CPUS, num_traces := happyEnv.stackJunk }) ∧
    happyEnv.stackJunk ≠ devTwo.num_traces := by
  refine ⟨rfl, rfl, by decide⟩

/-! ### C4: a failed privileged FREE_TRACE does not disable the device -/

/-- An environment in which the privileged FREE_TRACE action fails. -/
def envFreeFail : Env := { happyEnv with freeTraceResult := .internal }

set_option maxRecDepth 100000 in
/-- C4 (code bug): when the privileged FREE_TRACE fails, `ipt_free_trace`
returns `ok` and keeps the trace vector, but nothing is flagged: a subsequent
`get_trace_config` (directly and through the ioctl dispatcher) still returns
`ok`, not `BadState`, contradicting the "flag things as busted and prevent
further use" comment. -/
theorem C4_free_trace_failure_not_sealed :
    (ipt_free_trace envFreeFail devOne).1 = ZxStatus.ok ∧
    (ipt_free_trace envFreeFail devOne).2.per_trace_state ≠ none ∧
    (ipt_get_trace_config happyEnv (ipt_free_trace envFreeFail devOne).2
      sizeof_trace_config).1 = ZxStatus.ok ∧
    (insntrace_ioctl_worker capsAll happyEnv (ipt_free_trace envFreeFail devOne).2
      (.getTraceConfig 0 sizeof_trace_config)).1 = ZxStatus.ok := by
  refine ⟨rfl, by decide, rfl, rfl⟩

/-! ### C8: ctl validation against the settable mask and hardware masks -/

/-- The claim's rejection condition for a requested ctl: a bit outside the
settable mask, or a nonzero `mtc_freq` / `cyc_thresh` / `psb_freq` sub-field
whose `1 << value` bit is absent from the corresponding hardware mask. -/
def ctl_rejected (caps : IptConfig) (ctl : Nat) : Prop :=
  ctl &&& not64 (settable_ctl_mask caps) ≠ 0 ∨
  ((ctl &&& IPT_CTL_MTC_FREQ_MASK) >>> IPT_CTL_MTC_FREQ_SHIFT ≠ 0 ∧
    (1 <<< ((ctl &&& IPT_CTL_MTC_FREQ_MASK) >>> IPT_CTL_MTC_FREQ_SHIFT)) &&&
      caps.mtc_freq_mask = 0) ∨
  ((ctl &&& IPT_CTL_CYC_THRESH_MASK) >>> IPT_CTL_CYC_THRESH_SHIFT ≠ 0 ∧
    (1 <<< ((ctl &&& IPT_CTL_CYC_THRESH_MASK) >>> IPT_CTL_CYC_THRESH_SHIFT)) &&&
      caps.cyc_thresh_mask = 0) ∨
  ((ctl &&& IPT_CTL_PSB_FREQ_MASK) >>> IPT_CTL_PSB_FREQ_SHIFT ≠ 0 ∧
    (1 <<< ((ctl &&& IPT_CTL_PSB_FREQ_MASK) >>> IPT_CTL_PSB_FREQ_SHIFT)) &&&
      caps.psb_freq_mask = 0)

theorem validate_ctl_rejects (caps : IptConfig) (ctl : Nat)
    (h : ctl_rejected caps ctl) :
    validate_ctl caps ctl = some ZxStatus.invalidArgs := by
  unfold validate_ctl
  by_cases h1 : ctl &&& not64 (settable_ctl_mask caps) ≠ 0
  · rw [if_pos h1]
  · rw [if_neg h1]
    by_cases h2 : (ctl &&& IPT_CTL_MTC_FREQ_MASK) >>> IPT_CTL_MTC_FREQ_SHIFT ≠ 0 ∧
        (1 <<< ((ctl &&& IPT_CTL_MTC_FREQ_MASK) >>> IPT_CTL_MTC_FREQ_SHIFT)) &&&
          caps.mtc_freq_mask = 0
    · rw [if_pos h2]
    · rw [if_neg h2]
      by_cases h3 : (ctl &&& IPT_CTL_CYC_THRESH_MASK) >>> IPT_CTL_CYC_THRESH_SHIFT ≠ 0 ∧
          (1 <<< ((ctl &&& IPT_CTL_CYC_THRESH_MASK) >>> IPT_CTL_CYC_THRESH_SHIFT)) &&&
            caps.cyc_thresh_mask = 0
      · rw [if_pos h3]
      · rw [if_neg h3]
        by_cases h4 : (ctl &&& IPT_CTL_PSB_FREQ_MASK) >>> IPT_CTL_PSB_FREQ_SHIFT ≠ 0 ∧
            (1 <<< ((ctl &&& IPT_CTL_PSB_FREQ_MASK) >>> IPT_CTL_PSB_FREQ_SHIFT)) &&&
              caps.psb_freq_mask = 0
        · rw [if_pos h4]
        · exact absurd h (by simp [ctl_rejected, h1, h2, h3, h4])

theorem validate_ctl_passes (caps : IptConfig) (ctl : Nat)
    (h : ¬ ctl_rejected caps ctl) :
    validate_ctl caps ctl = none := by
  unfold ctl_rejected at h
  push_neg at h
  obtain ⟨h1, h2, h3, h4⟩ := h
  unfold validate_ctl
  rw [if_neg (by simpa using h1)]
  rw [if_neg (by intro hc; exact absurd (h2 hc.1) (by simp [hc.2]))]
  rw [if_neg (by intro hc; exact absurd (h3 hc.1) (by simp [hc.2]))]
  rw [if_neg (by intro hc; exact absurd (h4 hc.1) (by simp [hc.2]))]

/-- C8: `alloc_buffer` returns `InvalidArgs` whenever the requested ctl
contains a bit outside the settable mask or a nonzero sub-field failing the
hardware-mask test, and a ctl passing both tests is never rejected by this
validation (`validate_ctl` accepts it). -/
theorem C8_ctl_validation (caps : IptConfig) (env : Env) (dev : Device)
    (config : BufferConfig) :
    (ctl_rejected caps config.ctl →
      (x86_pt_alloc_buffer caps env dev config).1 = ZxStatus.invalidArgs) ∧
    (¬ ctl_rejected caps config.ctl → validate_ctl caps config.ctl = none) := by
  constructor
  · intro hrej
    unfold x86_pt_alloc_buffer
    by_cases h1 : config.num_chunks = 0 ∨ config.num_chunks > MAX_NUM_CHUNKS
    · rw [if_pos h1]
    · rw [if_neg h1]
      by_cases h2 : config.chunk_order > MAX_CHUNK_ORDER
      · rw [if_pos h2]
      · rw [if_neg h2]
        simp only
        by_cases h3 : config.num_chunks * 2 ^ config.chunk_order * PAGE_SIZE >
            MAX_PER_TRACE_SPACE
        · rw [if_pos h3]
        · rw [if_neg h3]
          rw [validate_ctl_rejects caps config.ctl hrej]
  · exact validate_ctl_passes caps config.ctl

theorem C8_ctl_validation_witness :
    (x86_pt_alloc_buffer capsAll happyEnv devOne
      { cfgOne with ctl := IPT_CTL_TRACE_EN_MASK }).1 = ZxStatus.invalidArgs ∧
    validate_ctl capsAll cfgOne.ctl = none :=
  ⟨(C8_ctl_validation capsAll happyEnv devOne
      { cfgOne with ctl := IPT_CTL_TRACE_EN_MASK }).1 (by unfold ctl_rejected; decide),
   (C8_ctl_validation capsAll happyEnv devOne cfgOne).2 (by unfold ctl_rejected; decide)⟩

/-! ### Table-array toolbox -/

theorem length_setEntry (tp : List Topa) (t j v : Nat) :
    (setEntry tp t j v).length = tp.length := by
  unfold setEntry
  cases h : tp.get? t with
  | none => rfl
  | some tab => simp [List.length_set]

theorem getD_setEntry_other (tp : List Topa) (t j v t' : Nat) (h : t' ≠ t) :
    (setEntry tp t j v).getD t' ⟨0, []⟩ = tp.getD t' ⟨0, []⟩ := by
  unfold setEntry
  cases hg : tp.get? t with
  | none => rfl
  | some tab =>
    rw [List.getD_eq_getElem?_getD, List.getD_eq_getElem?_getD,
      List.getElem?_set_ne (fun hc => h hc.symm)]

theorem getD_setEntry_self (tp : List Topa) (t j v : Nat) (ht : t < tp.length) :
    (setEntry tp t j v).getD t ⟨0, []⟩ =
      { tp.getD t ⟨0, []⟩ with
        entries := (tp.getD t ⟨0, []⟩).entries.set j v } := by
  unfold setEntry
  cases hg : tp.get? t with
  | none =>
    exact absurd hg (by simp [List.get?_eq_getElem?, List.getElem?_eq_some_iff.mpr]; omega)
  | some tab =>
    have htab : tp.getD t ⟨0, []⟩ = tab := by
      rw [List.getD_eq_getElem?_getD, ← List.get?_eq_getElem?, hg]
      rfl
    rw [List.getD_eq_getElem?_getD, List.getElem?_set_self ht]
    rw [htab]
    rfl

theorem physAt_setEntry (tp : List Topa) (t j v t' : Nat) :
    physAt (setEntry tp t j v) t' = physAt tp t' := by
  by_cases h : t' = t
  · subst h
    by_cases ht : t' < tp.length
    · unfold physAt
      rw [getD_setEntry_self tp t' j v ht]
    · unfold physAt setEntry
      cases hg : tp.get? t' with
      | none => rfl
      | some tab =>
        exact absurd (List.get?_eq_some.mp hg).1 (by omega)
  · unfold physAt
    rw [getD_setEntry_other tp t j v t' h]

theorem entriesLen_setEntry (tp : List Topa) (t j v t' : Nat) :
    ((setEntry tp t j v).getD t' ⟨0, []⟩).entries.length =
      (tp.getD t' ⟨0, []⟩).entries.length := by
  by_cases h : t' = t
  · subst h
    by_cases ht : t' < tp.length
    · rw [getD_setEntry_self tp t' j v ht]
      simp [List.length_set]
    · unfold setEntry
      cases hg : tp.get? t' with
      | none => rfl
      | some tab =>
        exact absurd (List.get?_eq_some.mp hg).1 (by omega)
  · rw [getD_setEntry_other tp t j v t' h]

theorem entryAt_setEntry_same (tp : List Topa) (t j v : Nat)
    (ht : t < tp.length) (hj : j < (tp.getD t ⟨0, []⟩).entries.length) :
    entryAt (setEntry tp t j v) t j = v := by
  unfold entryAt
  rw [getD_setEntry_self tp t j v ht]
  simp only
  rw [List.getD_eq_getElem?_getD, List.getElem?_set_self (by simpa using hj)]
  rfl

theorem entryAt_setEntry_ne (tp : List Topa) (t j v t' j' : Nat)
    (h : t ≠ t' ∨ j ≠ j') :
    entryAt (setEntry tp t j v) t' j' = entryAt tp t' j' := by
  by_cases het : t' = t
  · subst het
    have hj : j ≠ j' := by tauto
    by_cases ht : t' < tp.length
    · unfold entryAt
      rw [getD_setEntry_self tp t' j v ht]
      simp only
      rw [List.getD_eq_getElem?_getD, List.getElem?_set_ne hj]
      exact (List.getD_eq_getElem?_getD _ _ _).symm
    · unfold entryAt setEntry
      cases hg : tp.get? t' with
      | none => rfl
      | some tab =>
        exact absurd (List.get?_eq_some.mp hg).1 (by omega)
  · unfold entryAt
    rw [getD_setEntry_other tp t j v t' het]

theorem entryAt_out_of_tables (tp : List Topa) (t j : Nat) (h : tp.length ≤ t) :
    entryAt tp t j = 0 := by
  unfold entryAt
  have h0 : tp.getD t ⟨0, []⟩ = ⟨0, []⟩ := by
    rw [List.getD_eq_getElem?_getD, List.getElem?_eq_none (by omega)]
    rfl
  rw [h0]
  rfl

/-! ### Characterisation of the `make_topa` fill loop -/

/-- The data-entry word `make_topa` writes for a chunk at physical address
`pa` with chunk order `o`. -/
def topa_data_val (o pa : Nat) : Nat :=
  IPT_TOPA_ENTRY_PHYS_ADDR pa ||| IPT_TOPA_ENTRY_SIZE (o + PAGE_SIZE_SHIFT)

/-- The fill loop of `make_topa`, started as if `m` chunks had already been
placed. -/
def fill_run (o : Nat) (ps : List Nat) (m : Nat) (l0 : Option (Nat × Nat))
    (tp : List Topa) : TopaFill :=
  ps.foldl (topa_fill_step o)
    { curr_table := m / 511, curr_idx := m % 511, last_entry := l0, topas := tp }

theorem fill_run_cons (o pa : Nat) (ps : List Nat) (m : Nat)
    (l0 : Option (Nat × Nat)) (tp : List Topa) :
    fill_run o (pa :: ps) m l0 tp =
      fill_run o ps (m + 1) (some (m / 511, m % 511))
        (setEntry tp (m / 511) (m % 511) (topa_data_val o pa)) := by
  unfold fill_run
  rw [List.foldl_cons]
  congr 1
  simp only [topa_fill_step, IPT_TOPA_MAX_TABLE_ENTRIES]
  split
  · rename_i hw
    simp only [TopaFill.mk.injEq]
    exact ⟨by omega, by omega, trivial, rfl⟩
  · rename_i hw
    simp only [TopaFill.mk.injEq]
    exact ⟨by omega, by omega, trivial, rfl⟩

theorem fill_run_spec (o : Nat) (ps : List Nat) :
    ∀ (m : Nat) (l0 : Option (Nat × Nat)) (tp : List Topa),
      m + ps.length ≤ 511 * tp.length →
      (∀ t, t < tp.length → (tp.getD t ⟨0, []⟩).entries.length = 512) →
      (fill_run o ps m l0 tp).curr_table = (m + ps.length) / 511 ∧
      (fill_run o ps m l0 tp).curr_idx = (m + ps.length) % 511 ∧
      (fill_run o ps m l0 tp).last_entry = (if ps.length = 0 then l0
        else some ((m + ps.length - 1) / 511, (m + ps.length - 1) % 511)) ∧
      (fill_run o ps m l0 tp).topas.length = tp.length ∧
      (∀ t, physAt (fill_run o ps m l0 tp).topas t = physAt tp t) ∧
      (∀ t, t < tp.length →
        ((fill_run o ps m l0 tp).topas.getD t ⟨0, []⟩).entries.length = 512) ∧
      (∀ t j, entryAt (fill_run o ps m l0 tp).topas t j =
        if j < 511 ∧ m ≤ t * 511 + j ∧ t * 511 + j < m + ps.length then
          topa_data_val o (ps.getD (t * 511 + j - m) 0)
        else entryAt tp t j) := by
  induction ps with
  | nil =>
    intro m l0 tp hcap hent
    refine ⟨by simp [fill_run], by simp [fill_run], by simp [fill_run],
      by simp [fill_run], fun t => rfl, ?_, ?_⟩
    · intro t ht
      exact hent t ht
    · intro t j
      rw [if_neg (by simp only [List.length_nil]; omega)]
      rfl
  | cons pa ps ih =>
    intro m l0 tp hcap hent
    rw [fill_run_cons]
    have hmtab : m / 511 < tp.length := by
      simp only [List.length_cons] at hcap
      omega
    have hlen1 : (setEntry tp (m / 511) (m % 511) (topa_data_val o pa)).length =
        tp.length := length_setEntry tp _ _ _
    have hent1 : ∀ t, t < (setEntry tp (m / 511) (m % 511) (topa_data_val o pa)).length →
        ((setEntry tp (m / 511) (m % 511) (topa_data_val o pa)).getD t ⟨0, []⟩).entries.length
          = 512 := by
      intro t ht
      rw [entriesLen_setEntry]
      exact hent t (by omega)
    have hcap1 : (m + 1) + ps.length ≤
        511 * (setEntry tp (m / 511) (m % 511) (topa_data_val o pa)).length := by
      rw [hlen1]
      simp only [List.length_cons] at hcap
      omega
    obtain ⟨ih1, ih2, ih3, ih4, ih5, ih6, ih7⟩ :=
      ih (m + 1) (some (m / 511, m % 511)) _ hcap1 hent1
    refine ⟨?_, ?_, ?_, ?_, ?_, ?_, ?_⟩
    · rw [ih1]
      simp only [List.length_cons]
      omega
    · rw [ih2]
      simp only [List.length_cons]
      omega
    · rw [ih3]
      simp only [List.length_cons]
      by_cases hl : ps.length = 0
      · rw [if_pos hl, if_neg (by omega), hl]
        have hm : m + (0 + 1) - 1 = m := by omega
        have hm2 : m + 1 - 1 = m := by omega
        rw [hm2]
      · rw [if_neg hl, if_neg (by omega)]
        have hm : m + 1 + ps.length - 1 = m + (ps.length + 1) - 1 := by omega
        rw [hm]
    · rw [ih4, hlen1]
    · intro t
      rw [ih5 t, physAt_setEntry]
    · intro t ht
      rw [hlen1] at hent1
      exact ih6 t (by rw [hlen1]; exact ht)
    · intro t j
      rw [ih7 t j]
      by_cases hc1 : j < 511 ∧ m + 1 ≤ t * 511 + j ∧ t * 511 + j < m + 1 + ps.length
      · rw [if_pos hc1, if_pos (by simp only [List.length_cons]; omega)]
        congr 1
        have hpos : t * 511 + j - m = (t * 511 + j - (m + 1)) + 1 := by omega
        rw [hpos, List.getD_cons_succ]
      · rw [if_neg hc1]
        by_cases hc2 : t = m / 511 ∧ j = m % 511
        · obtain ⟨ht2, hj2⟩ := hc2
          subst ht2
          subst hj2
          rw [entryAt_setEntry_same tp (m / 511) (m % 511) _ hmtab
            (by rw [hent (m / 511) hmtab]; omega)]
          have hpos : m / 511 * 511 + m % 511 = m := by omega
          rw [hpos, if_pos (by simp only [List.length_cons]; omega)]
          have hz : m - m = 0 := by omega
          rw [hz, List.getD_cons_zero]
        · rw [entryAt_setEntry_ne tp _ _ _ t j (by omega)]
          rw [if_neg (by simp only [List.length_cons]; omega)]

theorem fill_run_zero (o : Nat) (ps : List Nat) (tp : List Topa) :
    ps.foldl (topa_fill_step o)
      { curr_table := 0, curr_idx := 0, last_entry := none, topas := tp } =
      fill_run o ps 0 none tp := by
  unfold fill_run
  norm_num

/-! ### Characterisation of the END-entry loop -/

theorem end_loop_spec (T : Nat) (tp : List Topa)
    (hent : ∀ t, t < tp.length → (tp.getD t ⟨0, []⟩).entries.length = 512) :
    ∀ c, c ≤ tp.length →
      ((List.range c).foldl (topa_write_end T) tp).length = tp.length ∧
      (∀ t, physAt ((List.range c).foldl (topa_write_end T) tp) t = physAt tp t) ∧
      (∀ t, t < tp.length →
        (((List.range c).foldl (topa_write_end T) tp).getD t ⟨0, []⟩).entries.length = 512) ∧
      (∀ t j, entryAt ((List.range c).foldl (topa_write_end T) tp) t j =
        if t < c ∧ j = IPT_TOPA_MAX_TABLE_ENTRIES - 1 then
          IPT_TOPA_ENTRY_PHYS_ADDR (physAt tp (if t = T - 1 then 0 else t + 1)) |||
            IPT_TOPA_ENTRY_END
        else entryAt tp t j) := by
  intro c
  induction c with
  | zero =>
    intro hc
    refine ⟨rfl, fun t => rfl, hent, fun t j => ?_⟩
    rw [if_neg (by omega)]
    rfl
  | succ c ihc =>
    intro hc
    obtain ⟨e1, e2, e3, e4⟩ := ihc (by omega)
    rw [List.range_succ, List.foldl_append, List.foldl_cons, List.foldl_nil]
    rw [show ∀ (tp0 : List Topa), topa_write_end T tp0 c = setEntry tp0 c
      (IPT_TOPA_MAX_TABLE_ENTRIES - 1)
      (IPT_TOPA_ENTRY_PHYS_ADDR (physAt tp0 (if c = T - 1 then 0 else c + 1)) |||
        IPT_TOPA_ENTRY_END) from fun tp0 => rfl]
    refine ⟨?_, ?_, ?_, ?_⟩
    · rw [length_setEntry, e1]
    · intro t
      rw [physAt_setEntry]
      exact e2 t
    · intro t ht
      rw [entriesLen_setEntry]
      exact e3 t ht
    · intro t j
      by_cases hcj : t = c ∧ j = IPT_TOPA_MAX_TABLE_ENTRIES - 1
      · obtain ⟨rfl, rfl⟩ := hcj
        rw [entryAt_setEntry_same _ _ _ _
          (by rw [e1]; omega)
          (by rw [e3 t (by omega)]; decide)]
        rw [e2]
        have hcnd : t < t + 1 ∧ IPT_TOPA_MAX_TABLE_ENTRIES - 1 =
            IPT_TOPA_MAX_TABLE_ENTRIES - 1 := ⟨by omega, rfl⟩
        rw [if_pos hcnd]
      · rw [entryAt_setEntry_ne _ _ _ _ _ _ (by tauto)]
        by_cases hprev : t < c ∧ j = IPT_TOPA_MAX_TABLE_ENTRIES - 1
        · have hcnd : t < c + 1 ∧ j = IPT_TOPA_MAX_TABLE_ENTRIES - 1 :=
            ⟨by omega, hprev.2⟩
          rw [e4 t j, if_pos hprev, if_pos hcnd]
        · rw [e4 t j, if_neg hprev]
          rw [if_neg ?hcond]
          case hcond =>
            rintro ⟨h1, h2⟩
            rcases Nat.lt_succ_iff_lt_or_eq.mp h1 with h | h
            · exact hprev ⟨h, h2⟩
            · exact hcj ⟨h, h2⟩

/-! ### The full `make_topa` characterisation -/

/-- Phase 3 of `make_topa`: the END entry of a possibly non-full last table,
written at the first empty slot. -/
def topa_phase3 (T ct ci : Nat) (topas : List Topa) : List Topa :=
  if ct < T then
    setEntry topas ct ci
      (IPT_TOPA_ENTRY_PHYS_ADDR (physAt topas 0) ||| IPT_TOPA_ENTRY_END)
  else topas

/-- Phase 4 of `make_topa`: OR the STOP flag into the last data entry when
the buffer is not circular. -/
def topa_phase4 (circ : Bool) (l : Option (Nat × Nat)) (topas : List Topa) : List Topa :=
  match l with
  | some (t, j) =>
    if !circ then setEntry topas t j (entryAt topas t j ||| IPT_TOPA_ENTRY_STOP)
    else topas
  | none => topas

theorem make_topa_def2 (pt : PerTrace) :
    (make_topa pt).topas =
      topa_phase4 pt.is_circular
        (fill_run pt.chunk_order pt.chunks 0 none pt.topas).last_entry
        (topa_phase3 pt.num_tables
          (fill_run pt.chunk_order pt.chunks 0 none pt.topas).curr_table
          (fill_run pt.chunk_order pt.chunks 0 none pt.topas).curr_idx
          ((List.range (fill_run pt.chunk_order pt.chunks 0 none pt.topas).curr_table).foldl
            (topa_write_end pt.num_tables)
            (fill_run pt.chunk_order pt.chunks 0 none pt.topas).topas)) := by
  unfold make_topa topa_phase4 topa_phase3
  rw [fill_run_zero]

/-- The closed form of the 64-bit word at slot `j` of table `t` after
`make_topa` builds the ToPA for `n` chunks of order `o` over tables `tp`. -/
def topa_spec_entry (o : Nat) (circ : Bool) (n T : Nat) (ps : List Nat)
    (tp : List Topa) (t j : Nat) : Nat :=
  if j < 511 ∧ t * 511 + j < n then
    (if t * 511 + j = n - 1 ∧ circ = false then
      topa_data_val o (ps.getD (t * 511 + j) 0) ||| IPT_TOPA_ENTRY_STOP
    else topa_data_val o (ps.getD (t * 511 + j) 0))
  else if t < n / 511 ∧ j = 511 then
    IPT_TOPA_ENTRY_PHYS_ADDR (physAt tp (if t = T - 1 then 0 else t + 1)) |||
      IPT_TOPA_ENTRY_END
  else if t = n / 511 ∧ j = n % 511 ∧ n % 511 ≠ 0 then
    IPT_TOPA_ENTRY_PHYS_ADDR (physAt tp 0) ||| IPT_TOPA_ENTRY_END
  else 0


theorem length_topa_phase3 (T ct ci : Nat) (x : List Topa) :
    (topa_phase3 T ct ci x).length = x.length := by
  unfold topa_phase3
  split
  · rw [length_setEntry]
  · rfl

theorem physAt_topa_phase3 (T ct ci : Nat) (x : List Topa) (t : Nat) :
    physAt (topa_phase3 T ct ci x) t = physAt x t := by
  unfold topa_phase3
  split
  · rw [physAt_setEntry]
  · rfl

theorem entriesLen_topa_phase3 (T ct ci : Nat) (x : List Topa) (t : Nat) :
    ((topa_phase3 T ct ci x).getD t ⟨0, []⟩).entries.length =
      (x.getD t ⟨0, []⟩).entries.length := by
  unfold topa_phase3
  split
  · rw [entriesLen_setEntry]
  · rfl

theorem length_topa_phase4 (circ : Bool) (l : Option (Nat × Nat)) (x : List Topa) :
    (topa_phase4 circ l x).length = x.length := by
  unfold topa_phase4
  cases l with
  | none => rfl
  | some p =>
    obtain ⟨a, b⟩ := p
    simp only
    split
    · rw [length_setEntry]
    · rfl

theorem physAt_topa_phase4 (circ : Bool) (l : Option (Nat × Nat)) (x : List Topa) (t : Nat) :
    physAt (topa_phase4 circ l x) t = physAt x t := by
  unfold topa_phase4
  cases l with
  | none => rfl
  | some p =>
    obtain ⟨a, b⟩ := p
    simp only
    split
    · rw [physAt_setEntry]
    · rfl

theorem make_topa_entries (pt : PerTrace)
    (hn : 1 ≤ pt.chunks.length)
    (hT : pt.num_tables = (pt.chunks.length + 510) / 511)
    (hlen : pt.topas.length = pt.num_tables)
    (hent : ∀ t, t < pt.topas.length → (pt.topas.getD t ⟨0, []⟩).entries.length = 512)
    (hzero : ∀ t j, entryAt pt.topas t j = 0) :
    (make_topa pt).topas.length = pt.topas.length ∧
    (∀ t, physAt (make_topa pt).topas t = physAt pt.topas t) ∧
    (∀ t j, entryAt (make_topa pt).topas t j =
      topa_spec_entry pt.chunk_order pt.is_circular pt.chunks.length pt.num_tables
        pt.chunks pt.topas t j) := by
  obtain ⟨ow, nc, o, circ, al, asg, T, r1, r2, r3, r4, r5, r6, ps, tp⟩ := pt
  simp only at hn hT hlen hent hzero ⊢
  have hcap : 0 + ps.length ≤ 511 * tp.length := by
    rw [hlen, hT]
    omega
  obtain ⟨f1, f2, f3, f4, f5, f6, f7⟩ := fill_run_spec o ps 0 none tp hcap hent
  simp only [Nat.zero_add] at f1 f2 f3
  have f3' : (fill_run o ps 0 none tp).last_entry =
      some ((ps.length - 1) / 511, (ps.length - 1) % 511) := by
    rw [f3, if_neg (by omega)]
  have f7' : ∀ t j, entryAt (fill_run o ps 0 none tp).topas t j =
      if j < 511 ∧ t * 511 + j < ps.length then
        topa_data_val o (ps.getD (t * 511 + j) 0)
      else 0 := by
    intro t j
    by_cases hd : j < 511 ∧ t * 511 + j < ps.length
    · have hd0 : j < 511 ∧ 0 ≤ t * 511 + j ∧ t * 511 + j < 0 + ps.length :=
        ⟨hd.1, by omega, by omega⟩
      rw [f7 t j, if_pos hd0, if_pos hd, Nat.sub_zero]
    · have hd0 : ¬(j < 511 ∧ 0 ≤ t * 511 + j ∧ t * 511 + j < 0 + ps.length) := by omega
      rw [f7 t j, if_neg hd0, if_neg hd, hzero]
  have hFent : ∀ t, t < (fill_run o ps 0 none tp).topas.length →
      ((fill_run o ps 0 none tp).topas.getD t ⟨0, []⟩).entries.length = 512 := by
    intro t ht
    exact f6 t (by omega)
  obtain ⟨g1, g2, g3, g4⟩ := end_loop_spec T (fill_run o ps 0 none tp).topas hFent
    (ps.length / 511) (by rw [f4, hlen, hT]; omega)
  have g4' : ∀ t j, entryAt ((List.range (ps.length / 511)).foldl
      (topa_write_end T) (fill_run o ps 0 none tp).topas) t j =
      if t < ps.length / 511 ∧ j = 511 then
        IPT_TOPA_ENTRY_PHYS_ADDR (physAt tp (if t = T - 1 then 0 else t + 1)) |||
          IPT_TOPA_ENTRY_END
      else if j < 511 ∧ t * 511 + j < ps.length then
        topa_data_val o (ps.getD (t * 511 + j) 0)
      else 0 := by
    intro t j
    by_cases he : t < ps.length / 511 ∧ j = IPT_TOPA_MAX_TABLE_ENTRIES - 1
    · have he2 : t < ps.length / 511 ∧ j = 511 := ⟨he.1, by rw [he.2]; rfl⟩
      rw [g4 t j, if_pos he, f5, if_pos he2]
    · have he2 : ¬(t < ps.length / 511 ∧ j = 511) := by
        intro hc
        exact he ⟨hc.1, by rw [hc.2]; rfl⟩
      rw [g4 t j, if_neg he, f7' t j, if_neg he2]
  have hfinal : (make_topa
      ⟨ow, nc, o, circ, al, asg, T, r1, r2, r3, r4, r5, r6, ps, tp⟩).topas =
      topa_phase4 circ (some ((ps.length - 1) / 511, (ps.length - 1) % 511))
        (topa_phase3 T (ps.length / 511) (ps.length % 511)
          ((List.range (ps.length / 511)).foldl (topa_write_end T)
            (fill_run o ps 0 none tp).topas)) := by
    rw [make_topa_def2]
    simp only
    rw [f1, f2, f3']
  have hmid : ∀ t j, entryAt (topa_phase3 T (ps.length / 511) (ps.length % 511)
      ((List.range (ps.length / 511)).foldl (topa_write_end T)
        (fill_run o ps 0 none tp).topas)) t j =
      topa_spec_entry o true ps.length T ps tp t j := by
    intro t j
    unfold topa_phase3
    by_cases hpart : ps.length % 511 = 0
    · have hct : ¬(ps.length / 511 < T) := by rw [hT]; omega
      rw [if_neg hct, g4' t j]
      unfold topa_spec_entry
      by_cases hd : j < 511 ∧ t * 511 + j < ps.length
      · have hA : ¬(t < ps.length / 511 ∧ j = 511) := by omega
        have hstop : ¬(t * 511 + j = ps.length - 1 ∧ true = false) := by simp
        rw [if_neg hA, if_pos hd, if_pos hd, if_neg hstop]
      · by_cases he2 : t < ps.length / 511 ∧ j = 511
        · rw [if_pos he2, if_neg hd, if_pos he2]
        · have h3f : ¬(t = ps.length / 511 ∧ j = ps.length % 511 ∧ ps.length % 511 ≠ 0) := by
            omega
          rw [if_neg he2, if_neg hd, if_neg hd, if_neg he2, if_neg h3f]
    · have hct : ps.length / 511 < T := by rw [hT]; omega
      rw [if_pos hct]
      by_cases hp : t = ps.length / 511 ∧ j = ps.length % 511
      · obtain ⟨h1, h2⟩ := hp
        subst h1
        subst h2
        have hEb : ps.length / 511 < ((List.range (ps.length / 511)).foldl
            (topa_write_end T) (fill_run o ps 0 none tp).topas).length := by
          rw [g1, f4, hlen, hT]
          omega
        have hEe : ps.length % 511 < (((List.range (ps.length / 511)).foldl
            (topa_write_end T) (fill_run o ps 0 none tp).topas).getD
              (ps.length / 511) ⟨0, []⟩).entries.length := by
          rw [g3 _ (by rw [f4, hlen, hT]; omega)]
          omega
        rw [entryAt_setEntry_same _ _ _ _ hEb hEe, g2, f5]
        unfold topa_spec_entry
        have hA : ¬(ps.length % 511 < 511 ∧
            ps.length / 511 * 511 + ps.length % 511 < ps.length) := by omega
        have hB : ¬(ps.length / 511 < ps.length / 511 ∧ ps.length % 511 = 511) := by omega
        have hC : ps.length / 511 = ps.length / 511 ∧
            ps.length % 511 = ps.length % 511 ∧ ps.length % 511 ≠ 0 := ⟨rfl, rfl, hpart⟩
        rw [if_neg hA, if_neg hB, if_pos hC]
      · rw [entryAt_setEntry_ne _ _ _ _ _ _ (by omega), g4' t j]
        unfold topa_spec_entry
        by_cases hd : j < 511 ∧ t * 511 + j < ps.length
        · have hA : ¬(t < ps.length / 511 ∧ j = 511) := by omega
          have hstop : ¬(t * 511 + j = ps.length - 1 ∧ true = false) := by simp
          rw [if_neg hA, if_pos hd, if_pos hd, if_neg hstop]
        · by_cases he2 : t < ps.length / 511 ∧ j = 511
          · rw [if_pos he2, if_neg hd, if_pos he2]
          · have h3f : ¬(t = ps.length / 511 ∧ j = ps.length % 511 ∧
                ps.length % 511 ≠ 0) := by omega
            rw [if_neg he2, if_neg hd, if_neg hd, if_neg he2, if_neg h3f]
  refine ⟨?_, ?_, ?_⟩
  · rw [hfinal, length_topa_phase4, length_topa_phase3, g1, f4]
  · intro t
    rw [hfinal, physAt_topa_phase4, physAt_topa_phase3, g2, f5]
  · intro t j
    rw [hfinal]
    unfold topa_phase4
    simp only
    cases circ with
    | true =>
      rw [if_neg (by simp)]
      exact hmid t j
    | false =>
      rw [if_pos (by simp)]
      have hLd : (ps.length - 1) % 511 < 511 ∧
          (ps.length - 1) / 511 * 511 + (ps.length - 1) % 511 < ps.length := by omega
      have hLstop : ¬((ps.length - 1) / 511 * 511 + (ps.length - 1) % 511 =
          ps.length - 1 ∧ true = false) := by simp
      have hLmid : entryAt (topa_phase3 T (ps.length / 511) (ps.length % 511)
          ((List.range (ps.length / 511)).foldl (topa_write_end T)
            (fill_run o ps 0 none tp).topas)) ((ps.length - 1) / 511)
            ((ps.length - 1) % 511) =
          topa_data_val o (ps.getD (ps.length - 1) 0) := by
        rw [hmid _ _]
        unfold topa_spec_entry
        rw [if_pos hLd, if_neg hLstop]
        have hidx : (ps.length - 1) / 511 * 511 + (ps.length - 1) % 511 =
            ps.length - 1 := by omega
        rw [hidx]
      have hb3 : (ps.length - 1) / 511 < (topa_phase3 T (ps.length / 511)
          (ps.length % 511) ((List.range (ps.length / 511)).foldl (topa_write_end T)
            (fill_run o ps 0 none tp).topas)).length := by
        rw [length_topa_phase3, g1, f4, hlen, hT]
        omega
      have he3 : (ps.length - 1) % 511 < ((topa_phase3 T (ps.length / 511)
          (ps.length % 511) ((List.range (ps.length / 511)).foldl (topa_write_end T)
            (fill_run o ps 0 none tp).topas)).getD ((ps.length - 1) / 511)
            ⟨0, []⟩).entries.length := by
        rw [entriesLen_topa_phase3, g3 _ (by rw [f4, hlen, hT]; omega)]
        omega
      by_cases hL : t = (ps.length - 1) / 511 ∧ j = (ps.length - 1) % 511
      · obtain ⟨h1, h2⟩ := hL
        subst h1
        subst h2
        rw [entryAt_setEntry_same _ _ _ _ hb3 he3, hLmid]
        unfold topa_spec_entry
        have hstop2 : (ps.length - 1) / 511 * 511 + (ps.length - 1) % 511 =
            ps.length - 1 ∧ (false : Bool) = false := ⟨by omega, rfl⟩
        rw [if_pos hLd, if_pos hstop2]
        have hidx : (ps.length - 1) / 511 * 511 + (ps.length - 1) % 511 =
            ps.length - 1 := by omega
        rw [hidx]
      · rw [entryAt_setEntry_ne _ _ _ _ _ _ (by omega), hmid t j]
        unfold topa_spec_entry
        by_cases hd : j < 511 ∧ t * 511 + j < ps.length
        · have hs1 : ¬(t * 511 + j = ps.length - 1 ∧ (true : Bool) = false) := by simp
          have hs2 : ¬(t * 511 + j = ps.length - 1 ∧ (false : Bool) = false) := by
            rintro ⟨hq, _⟩
            exact hL ⟨by omega, by omega⟩
          rw [if_pos hd, if_pos hd, if_neg hs1, if_neg hs2]
        · rw [if_neg hd, if_neg hd]

/-! ### Bit-level values of the ToPA entry words -/

theorem topa_data_val_eq (o pa : Nat) (ho : o < 64) :
    topa_data_val o pa = 4096 * (pa / 4096) + 64 * o := by
  unfold topa_data_val IPT_TOPA_ENTRY_PHYS_ADDR IPT_TOPA_ENTRY_SIZE PAGE_SIZE_SHIFT
  have h1 : o + 12 - 12 = o := by omega
  have h64 : (2 : Nat) ^ 6 = 64 := by norm_num
  have h4096 : (2 : Nat) ^ 12 = 4096 := by norm_num
  have ha : pa / 4096 * 4096 % 2 ^ 12 = 0 := by
    rw [h4096]
    exact Nat.mul_mod_left _ _
  have hb : o <<< 6 < 2 ^ 12 := by
    rw [Nat.shiftLeft_eq, h64, h4096]
    omega
  rw [h1, lor_low_eq_add _ _ 12 ha hb, Nat.shiftLeft_eq, h64]
  omega

theorem end_val_eq (x : Nat) :
    IPT_TOPA_ENTRY_PHYS_ADDR x ||| IPT_TOPA_ENTRY_END = 4096 * (x / 4096) + 1 := by
  unfold IPT_TOPA_ENTRY_PHYS_ADDR IPT_TOPA_ENTRY_END
  have h4096 : (2 : Nat) ^ 12 = 4096 := by norm_num
  have ha : x / 4096 * 4096 % 2 ^ 12 = 0 := by
    rw [h4096]
    exact Nat.mul_mod_left _ _
  rw [lor_low_eq_add _ _ 12 ha (by rw [h4096]; omega)]
  omega

theorem data_stop_val_eq (o pa : Nat) (ho : o < 64) :
    topa_data_val o pa ||| IPT_TOPA_ENTRY_STOP = 4096 * (pa / 4096) + 64 * o + 16 := by
  rw [topa_data_val_eq o pa ho]
  unfold IPT_TOPA_ENTRY_STOP
  have h32 : (2 : Nat) ^ 5 = 32 := by norm_num
  have ha : (4096 * (pa / 4096) + 64 * o) % 2 ^ 5 = 0 := by
    rw [h32]
    omega
  rw [lor_low_eq_add _ _ 5 ha (by norm_num)]
  norm_num

theorem and_stop_additive (a b : Nat) (hb : b < 32) :
    (32 * a + b) &&& IPT_TOPA_ENTRY_STOP = b &&& IPT_TOPA_ENTRY_STOP := by
  have hb5 : b < 2 ^ 5 := by
    have h32 : (2 : Nat) ^ 5 = 32 := by norm_num
    omega
  have h := Nat.testBit_mul_pow_two_add a hb5 4
  rw [if_pos (by norm_num)] at h
  have h5 : (32 : Nat) * a + b = 2 ^ 5 * a + b := by norm_num
  unfold IPT_TOPA_ENTRY_STOP
  rw [h5, Nat.and_two_pow, Nat.and_two_pow, h]

theorem data_val_and_stop (o pa : Nat) (ho : o < 64) :
    topa_data_val o pa &&& IPT_TOPA_ENTRY_STOP = 0 := by
  rw [topa_data_val_eq o pa ho]
  have h : 4096 * (pa / 4096) + 64 * o = 32 * (128 * (pa / 4096) + 2 * o) + 0 := by omega
  rw [h, and_stop_additive _ 0 (by norm_num)]
  decide

theorem data_stop_val_and_stop (o pa : Nat) (ho : o < 64) :
    (topa_data_val o pa ||| IPT_TOPA_ENTRY_STOP) &&& IPT_TOPA_ENTRY_STOP ≠ 0 := by
  rw [data_stop_val_eq o pa ho]
  have h : 4096 * (pa / 4096) + 64 * o + 16 = 32 * (128 * (pa / 4096) + 2 * o) + 16 := by
    omega
  rw [h, and_stop_additive _ 16 (by norm_num)]
  decide

theorem end_val_and_stop (x : Nat) :
    (IPT_TOPA_ENTRY_PHYS_ADDR x ||| IPT_TOPA_ENTRY_END) &&& IPT_TOPA_ENTRY_STOP = 0 := by
  rw [end_val_eq]
  have h : 4096 * (x / 4096) + 1 = 32 * (128 * (x / 4096)) + 1 := by omega
  rw [h, and_stop_additive _ 1 (by norm_num)]
  decide

theorem and_end_eq_mod_two (x : Nat) : x &&& IPT_TOPA_ENTRY_END = x % 2 := by
  unfold IPT_TOPA_ENTRY_END
  exact Nat.and_one_is_mod x

theorem data_val_and_end (o pa : Nat) (ho : o < 64) :
    topa_data_val o pa &&& IPT_TOPA_ENTRY_END = 0 := by
  rw [and_end_eq_mod_two, topa_data_val_eq o pa ho]
  omega

theorem end_val_and_end (x : Nat) :
    (IPT_TOPA_ENTRY_PHYS_ADDR x ||| IPT_TOPA_ENTRY_END) &&& IPT_TOPA_ENTRY_END =
      IPT_TOPA_ENTRY_END := by
  rw [and_end_eq_mod_two, end_val_eq]
  unfold IPT_TOPA_ENTRY_END
  omega

theorem extract_size_additive (k o s : Nat) (ho : o < 16) (hs : s < 64) :
    IPT_TOPA_ENTRY_EXTRACT_SIZE (4096 * k + 64 * o + s) = 12 + o := by
  unfold IPT_TOPA_ENTRY_EXTRACT_SIZE
  rw [Nat.shiftRight_eq_div_pow]
  have h15 : (15 : Nat) = 2 ^ 4 - 1 := by norm_num
  rw [h15, Nat.and_pow_two_sub_one_eq_mod]
  have h64 : (2 : Nat) ^ 6 = 64 := by norm_num
  have h16 : (2 : Nat) ^ 4 = 16 := by norm_num
  rw [h64, h16]
  have hd : (4096 * k + 64 * o + s) / 64 = 64 * k + o := by omega
  rw [hd]
  omega

theorem extract_size_data (o pa : Nat) (ho : o < 16) :
    IPT_TOPA_ENTRY_EXTRACT_SIZE (topa_data_val o pa) = 12 + o := by
  rw [topa_data_val_eq o pa (by omega)]
  simpa using extract_size_additive (pa / 4096) o 0 ho (by norm_num)

theorem extract_size_data_stop (o pa : Nat) (ho : o < 16) :
    IPT_TOPA_ENTRY_EXTRACT_SIZE (topa_data_val o pa ||| IPT_TOPA_ENTRY_STOP) = 12 + o := by
  rw [data_stop_val_eq o pa (by omega)]
  exact extract_size_additive (pa / 4096) o 16 ho (by norm_num)

theorem phys_of_end_val (x : Nat) (hx : x % 4096 = 0) :
    IPT_TOPA_ENTRY_PHYS_ADDR (IPT_TOPA_ENTRY_PHYS_ADDR x ||| IPT_TOPA_ENTRY_END) = x := by
  rw [end_val_eq]
  unfold IPT_TOPA_ENTRY_PHYS_ADDR
  omega

/-! ### Gluing a successful allocation to the entry characterisation -/

theorem topa_table_count_eq (n : Nat) (hn : 1 ≤ n) :
    topa_table_count n = (n + 510) / 511 := by
  show (compute_topa_entry_count n + IPT_TOPA_MAX_TABLE_ENTRIES - 1) /
      IPT_TOPA_MAX_TABLE_ENTRIES = (n + 510) / 511
  have h1 : compute_topa_entry_count n = n + (n + 512 - 2) / (512 - 1) := rfl
  rw [h1]
  show (n + (n + 512 - 2) / (512 - 1) + 512 - 1) / 512 = (n + 510) / 511
  omega

theorem topa_spec_entry_congr (o : Nat) (circ : Bool) (n T : Nat) (ps : List Nat)
    (tp tp' : List Topa) (t j : Nat) (hp : ∀ u, physAt tp u = physAt tp' u) :
    topa_spec_entry o circ n T ps tp t j = topa_spec_entry o circ n T ps tp' t j := by
  unfold topa_spec_entry
  simp only [hp]

theorem getD_replicate_zero (k j : Nat) : (List.replicate k (0 : Nat)).getD j 0 = 0 := by
  rw [List.getD_eq_getElem?_getD, List.getElem?_replicate]
  split <;> rfl

theorem alloc_slot_entries (caps : IptConfig) (env : Env) (dev : Device)
    (config : BufferConfig) (dev' : Device) (d : Nat)
    (h : x86_pt_alloc_buffer caps env dev config = (.ok, dev', some d))
    (hlen : dev.num_traces ≤ (dev.per_trace_state.getD []).length) :
    ∃ ps : List Nat,
      ps.length = config.num_chunks ∧
      1 ≤ config.num_chunks ∧
      config.chunk_order ≤ MAX_CHUNK_ORDER ∧
      ((dev'.per_trace_state.getD []).getD d zeroPerTrace).num_chunks = config.num_chunks ∧
      ((dev'.per_trace_state.getD []).getD d zeroPerTrace).chunk_order = config.chunk_order ∧
      ((dev'.per_trace_state.getD []).getD d zeroPerTrace).is_circular = config.is_circular ∧
      ((dev'.per_trace_state.getD []).getD d zeroPerTrace).num_tables =
        (config.num_chunks + 510) / 511 ∧
      ((dev'.per_trace_state.getD []).getD d zeroPerTrace).topas.length =
        ((dev'.per_trace_state.getD []).getD d zeroPerTrace).num_tables ∧
      ((dev'.per_trace_state.getD []).getD d zeroPerTrace).output_base =
        physAt ((dev'.per_trace_state.getD []).getD d zeroPerTrace).topas 0 ∧
      (∀ t j, entryAt ((dev'.per_trace_state.getD []).getD d zeroPerTrace).topas t j =
        topa_spec_entry config.chunk_order config.is_circular config.num_chunks
          ((dev'.per_trace_state.getD []).getD d zeroPerTrace).num_tables ps
          ((dev'.per_trace_state.getD []).getD d zeroPerTrace).topas t j) := by
  obtain ⟨pt, ha, hslot, hord⟩ := alloc_buffer_ok_slot caps env dev config dev' d h hlen
  obtain ⟨pt2, hpt, hnum, hclen, hcord, hcirc, hT, htlen, hall, hn1⟩ :=
    alloc_buffer1_ok_inversion caps env config.num_chunks config.chunk_order
      config.is_circular pt ha
  have hent : ∀ t, t < pt2.topas.length → (pt2.topas.getD t ⟨0, []⟩).entries.length = 512 := by
    intro t ht
    have hg : pt2.topas.getD t ⟨0, []⟩ = pt2.topas.get ⟨t, ht⟩ := by
      rw [List.getD_eq_getElem?_getD, List.getElem?_eq_getElem ht]
      rfl
    rw [hg, hall _ (List.get_mem pt2.topas t ht), List.length_replicate]
    rfl
  have hzero : ∀ t j, entryAt pt2.topas t j = 0 := by
    intro t j
    by_cases ht : t < pt2.topas.length
    · unfold entryAt
      have hg : pt2.topas.getD t ⟨0, []⟩ = pt2.topas.get ⟨t, ht⟩ := by
        rw [List.getD_eq_getElem?_getD, List.getElem?_eq_getElem ht]
        rfl
      rw [hg, hall _ (List.get_mem pt2.topas t ht)]
      exact getD_replicate_zero _ _
    · exact entryAt_out_of_tables pt2.topas t j (by omega)
  have hT2 : pt2.num_tables = (pt2.chunks.length + 510) / 511 := by
    rw [hT, hclen, topa_table_count_eq _ (by omega)]
  obtain ⟨m1, m2, m3⟩ := make_topa_entries pt2 (by omega) hT2 (by rw [htlen, hT])
    hent hzero
  have hst : ((dev'.per_trace_state.getD []).getD d zeroPerTrace).topas =
      (make_topa pt2).topas := by
    rw [hslot, hpt]
    rfl
  have hsT : ((dev'.per_trace_state.getD []).getD d zeroPerTrace).num_tables =
      pt2.num_tables := by
    rw [hslot, hpt]
    rfl
  refine ⟨pt2.chunks, by rw [hclen], by omega, hord, ?_, ?_, ?_, ?_, ?_, ?_, ?_⟩
  · rw [hslot, hpt]
    show pt2.num_chunks = config.num_chunks
    exact hnum
  · rw [hslot, hpt]
    show pt2.chunk_order = config.chunk_order
    exact hcord
  · rw [hslot, hpt]
    show pt2.is_circular = config.is_circular
    exact hcirc
  · rw [hsT, hT, topa_table_count_eq _ (by omega)]
  · rw [hst, hsT, m1, htlen, hT]
  · rw [hslot]
    rfl
  · intro t j
    rw [hst, hsT, m3 t j]
    have hc : topa_spec_entry pt2.chunk_order pt2.is_circular pt2.chunks.length
        pt2.num_tables pt2.chunks pt2.topas t j =
        topa_spec_entry config.chunk_order config.is_circular config.num_chunks
          pt2.num_tables pt2.chunks pt2.topas t j := by
      rw [hcord, hcirc, hclen]
    rw [hc]
    exact topa_spec_entry_congr _ _ _ _ _ _ _ t j (fun u => (m2 u).symm)

/-! ### C6: placement of the STOP flag -/

theorem topa_spec_entry_and_stop (o : Nat) (circ : Bool) (n T : Nat) (ps : List Nat)
    (tp : List Topa) (t j : Nat) (ho : o < 64) (hn : 1 ≤ n) :
    topa_spec_entry o circ n T ps tp t j &&& IPT_TOPA_ENTRY_STOP ≠ 0 ↔
      (t = (n - 1) / 511 ∧ j = (n - 1) % 511 ∧ circ = false) := by
  unfold topa_spec_entry
  by_cases h1 : j < 511 ∧ t * 511 + j < n
  · rw [if_pos h1]
    by_cases h2 : t * 511 + j = n - 1 ∧ circ = false
    · rw [if_pos h2]
      constructor
      · intro _
        refine ⟨?_, ?_, h2.2⟩ <;> omega
      · intro _
        exact data_stop_val_and_stop o _ ho
    · rw [if_neg h2]
      constructor
      · intro hs
        exact absurd (data_val_and_stop o _ ho) hs
      · rintro ⟨ha, hb, hc⟩
        exact absurd ⟨by omega, hc⟩ h2
  · rw [if_neg h1]
    by_cases h3 : t < n / 511 ∧ j = 511
    · rw [if_pos h3]
      constructor
      · intro hs
        exact absurd (end_val_and_stop _) hs
      · rintro ⟨ha, hb, hc⟩
        omega
    · rw [if_neg h3]
      by_cases h4 : t = n / 511 ∧ j = n % 511 ∧ n % 511 ≠ 0
      · rw [if_pos h4]
        constructor
        · intro hs
          exact absurd (end_val_and_stop _) hs
        · rintro ⟨ha, hb, hc⟩
          omega
      · rw [if_neg h4]
        constructor
        · intro hs
          rw [Nat.zero_and] at hs
          exact absurd rfl hs
        · rintro ⟨ha, hb, hc⟩
          exact absurd ⟨by omega, by omega⟩ h1

/-- C6: in a successfully allocated buffer the STOP flag sits on the trailing
data entry — table `(num_chunks - 1) / 511`, slot `(num_chunks - 1) % 511` —
exactly when the buffer is not circular, and on no other entry of any table. -/
theorem C6_stop_flag (caps : IptConfig) (env : Env) (dev : Device)
    (config : BufferConfig) (dev' : Device) (d : Nat)
    (h : x86_pt_alloc_buffer caps env dev config = (.ok, dev', some d))
    (hlen : dev.num_traces ≤ (dev.per_trace_state.getD []).length) :
    (entryAt ((dev'.per_trace_state.getD []).getD d zeroPerTrace).topas
        ((config.num_chunks - 1) / 511) ((config.num_chunks - 1) % 511) &&&
        IPT_TOPA_ENTRY_STOP ≠ 0 ↔ config.is_circular = false) ∧
    (∀ t j, ¬(t = (config.num_chunks - 1) / 511 ∧ j = (config.num_chunks - 1) % 511) →
      entryAt ((dev'.per_trace_state.getD []).getD d zeroPerTrace).topas t j &&&
        IPT_TOPA_ENTRY_STOP = 0) := by
  obtain ⟨ps, hps, hn1, hord, _, _, _, _, _, _, hE⟩ :=
    alloc_slot_entries caps env dev config dev' d h hlen
  have ho : config.chunk_order < 64 := by
    have h8 : MAX_CHUNK_ORDER = 8 := rfl
    omega
  constructor
  · rw [hE]
    rw [topa_spec_entry_and_stop _ _ _ _ _ _ _ _ ho hn1]
    constructor
    · rintro ⟨_, _, hc⟩
      exact hc
    · intro hc
      exact ⟨rfl, rfl, hc⟩
  · intro t j hne
    rw [hE]
    by_contra hs
    obtain ⟨ha, hb, _⟩ := (topa_spec_entry_and_stop _ _ _ _ _ _ t j ho hn1).mp hs
    exact hne ⟨ha, hb⟩

set_option maxRecDepth 100000 in
theorem C6_stop_flag_witness :
    (entryAt ((devAfterAllocOne.per_trace_state.getD []).getD 0 zeroPerTrace).topas
        ((cfgOne.num_chunks - 1) / 511) ((cfgOne.num_chunks - 1) % 511) &&&
        IPT_TOPA_ENTRY_STOP ≠ 0 ↔ cfgOne.is_circular = false) ∧
    (∀ t j, ¬(t = (cfgOne.num_chunks - 1) / 511 ∧ j = (cfgOne.num_chunks - 1) % 511) →
      entryAt ((devAfterAllocOne.per_trace_state.getD []).getD 0 zeroPerTrace).topas t j &&&
        IPT_TOPA_ENTRY_STOP = 0) :=
  C6_stop_flag capsAll happyEnv devOne cfgOne devAfterAllocOne 0 (by decide) (by decide)

/-! ### C5: placement and targets of the END entries -/

/-- Where the END entry of table `i` actually sits: slot
`TABLE_ENTRIES - 1` in the tables that are completely filled with data
entries, and the first free slot (`num_chunks % (TABLE_ENTRIES - 1)`) in a
partially filled last table. -/
def topa_end_slot (num_chunks i : Nat) : Nat :=
  if i < num_chunks / (IPT_TOPA_MAX_TABLE_ENTRIES - 1) then
    IPT_TOPA_MAX_TABLE_ENTRIES - 1
  else num_chunks % (IPT_TOPA_MAX_TABLE_ENTRIES - 1)

set_option maxRecDepth 100000 in
theorem C5_counterexample :
    (x86_pt_alloc_buffer capsAll happyEnv devOne cfgOne).1 = ZxStatus.ok ∧
    0 < ((devAfterAllocOne.per_trace_state.getD []).getD 0 zeroPerTrace).num_tables ∧
    entryAt ((devAfterAllocOne.per_trace_state.getD []).getD 0 zeroPerTrace).topas 0
      (IPT_TOPA_MAX_TABLE_ENTRIES - 1) &&& IPT_TOPA_ENTRY_END = 0 := by
  refine ⟨by decide, by decide, by decide⟩

/-- C5 (amended): in a successfully allocated slot whose tables sit at
page-aligned physical addresses, the END entry of table `i` sits at slot
`topa_end_slot num_chunks i` — slot `TABLE_ENTRIES - 1` only in the fully
populated tables, and the first free slot in a partial last table — and its
physical target is the physical address of table `(i+1) mod num_tables`. -/
theorem C5_end_linkage (caps : IptConfig) (env : Env) (dev : Device)
    (config : BufferConfig) (dev' : Device) (d : Nat)
    (h : x86_pt_alloc_buffer caps env dev config = (.ok, dev', some d))
    (hlen : dev.num_traces ≤ (dev.per_trace_state.getD []).length)
    (halign : ∀ u, u < ((dev'.per_trace_state.getD []).getD d zeroPerTrace).num_tables →
      physAt ((dev'.per_trace_state.getD []).getD d zeroPerTrace).topas u % PAGE_SIZE = 0) :
    ∀ i, i < ((dev'.per_trace_state.getD []).getD d zeroPerTrace).num_tables →
      entryAt ((dev'.per_trace_state.getD []).getD d zeroPerTrace).topas i
          (topa_end_slot config.num_chunks i) &&& IPT_TOPA_ENTRY_END =
        IPT_TOPA_ENTRY_END ∧
      IPT_TOPA_ENTRY_PHYS_ADDR
          (entryAt ((dev'.per_trace_state.getD []).getD d zeroPerTrace).topas i
            (topa_end_slot config.num_chunks i)) =
        physAt ((dev'.per_trace_state.getD []).getD d zeroPerTrace).topas
          ((i + 1) % ((dev'.per_trace_state.getD []).getD d zeroPerTrace).num_tables) := by
  obtain ⟨ps, hps, hn1, hord, _, _, _, hTT, _, _, hE⟩ :=
    alloc_slot_entries caps env dev config dev' d h hlen
  intro i hi
  rw [hTT] at hi
  by_cases hfull : i < config.num_chunks / 511
  · have hslot : topa_end_slot config.num_chunks i = 511 := by
      unfold topa_end_slot IPT_TOPA_MAX_TABLE_ENTRIES
      rw [if_pos (by omega)]
    rw [hslot, hE]
    unfold topa_spec_entry
    have hc1 : ¬((511 : Nat) < 511 ∧ i * 511 + 511 < config.num_chunks) := by omega
    rw [if_neg hc1]
    have hc2 : i < config.num_chunks / 511 ∧ (511 : Nat) = 511 := ⟨hfull, rfl⟩
    rw [if_pos hc2]
    set T := ((dev'.per_trace_state.getD []).getD d zeroPerTrace).num_tables with hT
    by_cases hlast : i = T - 1
    · have hnxt : (if i = T - 1 then 0 else i + 1) = 0 := by rw [if_pos hlast]
      rw [hnxt]
      have hmod : (i + 1) % T = 0 := by
        have : i + 1 = T := by omega
        rw [this, Nat.mod_self]
      rw [hmod]
      have ha := halign 0 (by omega)
      have ha4 : physAt ((dev'.per_trace_state.getD []).getD d zeroPerTrace).topas 0
          % 4096 = 0 := ha
      exact ⟨end_val_and_end _, phys_of_end_val _ ha4⟩
    · have hnxt : (if i = T - 1 then 0 else i + 1) = i + 1 := by rw [if_neg hlast]
      rw [hnxt]
      have hmod : (i + 1) % T = i + 1 := by
        apply Nat.mod_eq_of_lt
        omega
      rw [hmod]
      have ha := halign (i + 1) (by omega)
      have ha4 : physAt ((dev'.per_trace_state.getD []).getD d zeroPerTrace).topas (i + 1)
          % 4096 = 0 := ha
      exact ⟨end_val_and_end _, phys_of_end_val _ ha4⟩
  · have hipos : i = config.num_chunks / 511 ∧ config.num_chunks % 511 ≠ 0 := by
      constructor <;> omega
    have hslot : topa_end_slot config.num_chunks i = config.num_chunks % 511 := by
      unfold topa_end_slot IPT_TOPA_MAX_TABLE_ENTRIES
      rw [if_neg (by omega)]
    rw [hslot, hE]
    unfold topa_spec_entry
    have hc1 : ¬(config.num_chunks % 511 < 511 ∧
        i * 511 + config.num_chunks % 511 < config.num_chunks) := by
      rintro ⟨h1, h2⟩
      omega
    rw [if_neg hc1]
    have hc2 : ¬(i < config.num_chunks / 511 ∧ config.num_chunks % 511 = 511) := by
      rintro ⟨h1, h2⟩
      omega
    rw [if_neg hc2]
    have hc3 : i = config.num_chunks / 511 ∧
        config.num_chunks % 511 = config.num_chunks % 511 ∧
        config.num_chunks % 511 ≠ 0 := ⟨hipos.1, rfl, hipos.2⟩
    rw [if_pos hc3]
    have hmod : (i + 1) % ((dev'.per_trace_state.getD []).getD d zeroPerTrace).num_tables
        = 0 := by
      have : i + 1 = ((dev'.per_trace_state.getD []).getD d zeroPerTrace).num_tables := by
        rw [hTT]
        omega
      rw [this, Nat.mod_self]
    rw [hmod]
    have ha := halign 0 (by rw [hTT]; omega)
    have ha4 : physAt ((dev'.per_trace_state.getD []).getD d zeroPerTrace).topas 0
        % 4096 = 0 := ha
    exact ⟨end_val_and_end _, phys_of_end_val _ ha4⟩

set_option maxRecDepth 100000 in
theorem C5_end_linkage_witness :
    (entryAt ((devAfterAllocOne.per_trace_state.getD []).getD 0 zeroPerTrace).topas 0
        (topa_end_slot cfgOne.num_chunks 0) &&& IPT_TOPA_ENTRY_END =
      IPT_TOPA_ENTRY_END) ∧
    IPT_TOPA_ENTRY_PHYS_ADDR
        (entryAt ((devAfterAllocOne.per_trace_state.getD []).getD 0 zeroPerTrace).topas 0
          (topa_end_slot cfgOne.num_chunks 0)) =
      physAt ((devAfterAllocOne.per_trace_state.getD []).getD 0 zeroPerTrace).topas
        ((0 + 1) % ((devAfterAllocOne.per_trace_state.getD []).getD 0
          zeroPerTrace).num_tables) :=
  C5_end_linkage capsAll happyEnv devOne cfgOne devAfterAllocOne 0 (by decide) (by decide)
    (by decide) 0 (by decide)

/-! ### C9: the capture-size walker -/

theorem capture_entry_error (tpa b ci co : Nat) (entries : List Nat) (l : List Nat)
    (x : Nat) :
    l.foldl (capture_entry_step tpa b ci co entries) (.error x) = .error x := by
  induction l with
  | nil => rfl
  | cons a l ih =>
    rw [List.foldl_cons]
    have hstep : capture_entry_step tpa b ci co entries (.error x) a = .error x := rfl
    rw [hstep, ih]

theorem capture_outer_error (b ci co : Nat) (tps : List Topa) (l : List Nat) (x : Nat) :
    l.foldl (fun st table => capture_table_scan b ci co (tps.getD table ⟨0, []⟩) st)
      (.error x) = .error x := by
  induction l with
  | nil => rfl
  | cons a l ih =>
    rw [List.foldl_cons]
    have hstep : capture_table_scan b ci co (tps.getD a ⟨0, []⟩) (.error x) = .error x := rfl
    rw [hstep, ih]

theorem capture_scan_no_match (tpa b ci co : Nat) (entries : List Nat) (c : Nat)
    (hne : tpa ≠ b)
    (hsz : ∀ e, e < 511 → 2 ^ IPT_TOPA_ENTRY_EXTRACT_SIZE (entries.getD e 0) = c) :
    ∀ (k s tot : Nat), s + k ≤ 511 →
      (List.range' s k).foldl (capture_entry_step tpa b ci co entries) (.ok tot) =
        .ok (tot + k * c) := by
  intro k
  induction k with
  | zero =>
    intro s tot hsk
    simp
  | succ k ih =>
    intro s tot hsk
    rw [List.range'_succ, List.foldl_cons]
    have hred : capture_entry_step tpa b ci co entries (.ok tot) s =
        if tpa = b ∧ s ≥ ci then .error (tot + co)
        else .ok (tot + 2 ^ IPT_TOPA_ENTRY_EXTRACT_SIZE (entries.getD s 0)) := rfl
    have hstep : capture_entry_step tpa b ci co entries (.ok tot) s =
        .ok (tot + 2 ^ IPT_TOPA_ENTRY_EXTRACT_SIZE (entries.getD s 0)) := by
      rw [hred, if_neg (by rintro ⟨h1, h2⟩; exact hne h1)]
    rw [hstep, hsz s (by omega), ih (s + 1) (tot + c) (by omega)]
    congr 1
    ring

theorem capture_scan_match (b ci co : Nat) (entries : List Nat) (c : Nat)
    (hsz : ∀ e, e < ci → 2 ^ IPT_TOPA_ENTRY_EXTRACT_SIZE (entries.getD e 0) = c) :
    ∀ (k s tot : Nat), s ≤ ci → ci < s + k →
      (List.range' s k).foldl (capture_entry_step b b ci co entries) (.ok tot) =
        .error (tot + (ci - s) * c + co) := by
  intro k
  induction k with
  | zero =>
    intro s tot h1 h2
    omega
  | succ k ih =>
    intro s tot h1 h2
    rw [List.range'_succ, List.foldl_cons]
    by_cases hs : s = ci
    · have hred : capture_entry_step b b ci co entries (.ok tot) s =
          if b = b ∧ s ≥ ci then .error (tot + co)
          else .ok (tot + 2 ^ IPT_TOPA_ENTRY_EXTRACT_SIZE (entries.getD s 0)) := rfl
      have hstep : capture_entry_step b b ci co entries (.ok tot) s = .error (tot + co) := by
        rw [hred, if_pos ⟨rfl, by omega⟩]
      rw [hstep, capture_entry_error]
      have h0 : ci - s = 0 := by omega
      rw [h0]
      norm_num
    · have hred : capture_entry_step b b ci co entries (.ok tot) s =
          if b = b ∧ s ≥ ci then .error (tot + co)
          else .ok (tot + 2 ^ IPT_TOPA_ENTRY_EXTRACT_SIZE (entries.getD s 0)) := rfl
      have hstep : capture_entry_step b b ci co entries (.ok tot) s =
          .ok (tot + 2 ^ IPT_TOPA_ENTRY_EXTRACT_SIZE (entries.getD s 0)) := by
        rw [hred, if_neg (by rintro ⟨h3, h4⟩; omega)]
      rw [hstep, hsz s (by omega), ih (s + 1) (tot + c) (by omega) (by omega)]
      congr 1
      have hcs : ci - s = ci - (s + 1) + 1 := by omega
      rw [hcs]
      ring

theorem capture_table_scan_match (b ci co : Nat) (topa : Topa) (c tot : Nat)
    (hb : topa.phys = b) (hci : ci < 511)
    (hsz : ∀ e, e < ci → 2 ^ IPT_TOPA_ENTRY_EXTRACT_SIZE (topa.entries.getD e 0) = c) :
    capture_table_scan b ci co topa (.ok tot) = .error (tot + ci * c + co) := by
  have hrfl : capture_table_scan b ci co topa (.ok tot) =
      (List.range (IPT_TOPA_MAX_TABLE_ENTRIES - 1)).foldl
        (capture_entry_step topa.phys b ci co topa.entries) (.ok tot) := rfl
  rw [hrfl, hb, List.range_eq_range']
  have h := capture_scan_match b ci co topa.entries c hsz
    (IPT_TOPA_MAX_TABLE_ENTRIES - 1) 0 tot (by omega)
    (by have h512 : IPT_TOPA_MAX_TABLE_ENTRIES = 512 := rfl; omega)
  rw [h, Nat.sub_zero]

theorem capture_outer_segment (b ci co : Nat) (tps : List Topa) (c : Nat) :
    ∀ (k s tot : Nat),
      (∀ u, s ≤ u → u < s + k → (tps.getD u ⟨0, []⟩).phys ≠ b) →
      (∀ u e, s ≤ u → u < s + k → e < 511 →
        2 ^ IPT_TOPA_ENTRY_EXTRACT_SIZE ((tps.getD u ⟨0, []⟩).entries.getD e 0) = c) →
      (List.range' s k).foldl
        (fun st table => capture_table_scan b ci co (tps.getD table ⟨0, []⟩) st)
        (.ok tot) = .ok (tot + k * (511 * c)) := by
  intro k
  induction k with
  | zero =>
    intro s tot _ _
    simp
  | succ k ih =>
    intro s tot hphys hsz
    rw [List.range'_succ, List.foldl_cons]
    have hscan : capture_table_scan b ci co (tps.getD s ⟨0, []⟩) (.ok tot) =
        .ok (tot + 511 * c) := by
      have hrfl : capture_table_scan b ci co (tps.getD s ⟨0, []⟩) (.ok tot) =
          (List.range (IPT_TOPA_MAX_TABLE_ENTRIES - 1)).foldl
            (capture_entry_step (tps.getD s ⟨0, []⟩).phys b ci co
              (tps.getD s ⟨0, []⟩).entries) (.ok tot) := rfl
      rw [hrfl, List.range_eq_range']
      exact capture_scan_no_match _ _ _ _ _ _ (hphys s (by omega) (by omega))
        (fun e he => hsz s e (by omega) (by omega) he)
        (IPT_TOPA_MAX_TABLE_ENTRIES - 1) 0 tot
        (by have h512 : IPT_TOPA_MAX_TABLE_ENTRIES = 512 := rfl; omega)
    rw [hscan, ih (s + 1) (tot + 511 * c) (fun u h1 h2 => hphys u (by omega) (by omega))
      (fun u e h1 h2 he => hsz u e (by omega) (by omega) he)]
    have harith : tot + 511 * c + k * (511 * c) = tot + (k + 1) * (511 * c) := by ring
    rw [harith]

theorem topa_spec_entry_extract (o : Nat) (circ : Bool) (n T : Nat) (ps : List Nat)
    (tp : List Topa) (t j : Nat) (ho : o < 16) (hj : j < 511) (hpos : t * 511 + j < n) :
    2 ^ IPT_TOPA_ENTRY_EXTRACT_SIZE (topa_spec_entry o circ n T ps tp t j) =
      2 ^ (12 + o) := by
  unfold topa_spec_entry
  rw [if_pos ⟨hj, hpos⟩]
  by_cases hst : t * 511 + j = n - 1 ∧ circ = false
  · rw [if_pos hst, extract_size_data_stop _ _ ho]
  · rw [if_neg hst, extract_size_data _ _ ho]

set_option maxRecDepth 100000 in
theorem C9_counterexample :
    (x86_pt_alloc_buffer capsAll happyEnv devOne cfgOne).1 = ZxStatus.ok ∧
    ((devAfterAllocOne.per_trace_state.getD []).getD 0 zeroPerTrace).allocated = true ∧
    ¬(compute_capture_size
        { (devAfterAllocOne.per_trace_state.getD []).getD 0 zeroPerTrace with
          output_mask_ptrs := 8192 * 2 ^ 32 } ≤
      cfgOne.num_chunks * 2 ^ cfgOne.chunk_order * PAGE_SIZE) := by
  refine ⟨by decide, by decide, by decide⟩

/-- C9 (amended): the walker's capture size stays below
`num_chunks * 2^chunk_order * PAGE_SIZE` only for saved registers that are
consistent with the slot's tables: if `output_base` matches the physical
address of some table `tmatch` (and of no earlier table), the saved entry
index points at a data entry of that table and the saved byte offset does not
exceed one chunk, then the bound holds. -/
theorem C9_capture_bound (caps : IptConfig) (env : Env) (dev : Device)
    (config : BufferConfig) (dev' : Device) (d : Nat) (b m tmatch : Nat)
    (h : x86_pt_alloc_buffer caps env dev config = (.ok, dev', some d))
    (hlen : dev.num_traces ≤ (dev.per_trace_state.getD []).length)
    (htm : tmatch < ((dev'.per_trace_state.getD []).getD d zeroPerTrace).num_tables)
    (hb : physAt ((dev'.per_trace_state.getD []).getD d zeroPerTrace).topas tmatch = b)
    (hfirst : ∀ u, u < tmatch →
      physAt ((dev'.per_trace_state.getD []).getD d zeroPerTrace).topas u ≠ b)
    (hcidx : m % 2 ^ 32 >>> 7 < 511)
    (hpos : tmatch * 511 + m % 2 ^ 32 >>> 7 < config.num_chunks)
    (hoff : (m >>> 32) % 2 ^ 32 ≤ 2 ^ (config.chunk_order + 12)) :
    compute_capture_size
        { (dev'.per_trace_state.getD []).getD d zeroPerTrace with
          output_base := b, output_mask_ptrs := m } ≤
      config.num_chunks * 2 ^ config.chunk_order * PAGE_SIZE := by
  obtain ⟨ps, hps, hn1, hord, hnc, hcorder, hic, hTT, hlen2, hob, hE⟩ :=
    alloc_slot_entries caps env dev config dev' d h hlen
  have ho16 : config.chunk_order < 16 := by
    have h8 : MAX_CHUNK_ORDER = 8 := rfl
    omega
  have hsz_all : ∀ u e, u * 511 + e < config.num_chunks → e < 511 →
      2 ^ IPT_TOPA_ENTRY_EXTRACT_SIZE
        ((((dev'.per_trace_state.getD []).getD d zeroPerTrace).topas.getD u
          ⟨0, []⟩).entries.getD e 0) = 2 ^ (12 + config.chunk_order) := by
    intro u e hp he
    have hent : (((dev'.per_trace_state.getD []).getD d zeroPerTrace).topas.getD u
        ⟨0, []⟩).entries.getD e 0 =
        entryAt ((dev'.per_trace_state.getD []).getD d zeroPerTrace).topas u e := rfl
    rw [hent, hE u e]
    exact topa_spec_entry_extract _ _ _ _ _ _ u e ho16 he hp
  have hbody : compute_capture_size
      { (dev'.per_trace_state.getD []).getD d zeroPerTrace with
        output_base := b, output_mask_ptrs := m } =
      (match (List.range
          ((dev'.per_trace_state.getD []).getD d zeroPerTrace).num_tables).foldl
          (fun st table => capture_table_scan b (m % 2 ^ 32 >>> 7) ((m >>> 32) % 2 ^ 32)
            (((dev'.per_trace_state.getD []).getD d zeroPerTrace).topas.getD table
              ⟨0, []⟩) st)
          (.ok 0) with
        | .error total => total
        | .ok _ => 0) := rfl
  set ci := m % 2 ^ 32 >>> 7 with hcidef
  set co := (m >>> 32) % 2 ^ 32 with hcodef
  set c := 2 ^ (12 + config.chunk_order) with hcdef
  set T := ((dev'.per_trace_state.getD []).getD d zeroPerTrace).num_tables with hTdef
  have hsplit : List.range' 0 T = List.range' 0 tmatch ++ List.range' tmatch (T - tmatch) := by
    have happ := List.range'_append_1 0 tmatch (T - tmatch)
    have e1 : 0 + tmatch = tmatch := by omega
    have e2 : T - tmatch + tmatch = T := by omega
    rw [e1, e2] at happ
    exact happ.symm
  have hfold : (List.range T).foldl
      (fun st table => capture_table_scan b ci co
        (((dev'.per_trace_state.getD []).getD d zeroPerTrace).topas.getD table ⟨0, []⟩) st)
      (.ok 0) = .error (0 + tmatch * (511 * c) + ci * c + co) := by
    rw [List.range_eq_range', hsplit, List.foldl_append]
    have hseg := capture_outer_segment b ci co
      ((dev'.per_trace_state.getD []).getD d zeroPerTrace).topas c tmatch 0 0
      (fun u h1 h2 => hfirst u (by omega))
      (fun u e h1 h2 he => hsz_all u e (by omega) he)
    rw [hseg]
    have hTm : T - tmatch = T - tmatch - 1 + 1 := by omega
    rw [hTm, List.range'_succ, List.foldl_cons]
    have hmatch := capture_table_scan_match b ci co
      (((dev'.per_trace_state.getD []).getD d zeroPerTrace).topas.getD tmatch ⟨0, []⟩)
      c (0 + tmatch * (511 * c)) hb hcidx
      (fun e he => hsz_all tmatch e (by omega) (by omega))
    rw [hmatch, capture_outer_error]
  have hval : compute_capture_size
      { (dev'.per_trace_state.getD []).getD d zeroPerTrace with
        output_base := b, output_mask_ptrs := m } =
      0 + tmatch * (511 * c) + ci * c + co := by
    rw [hbody, hfold]
  rw [hval]
  have hoff2 : co ≤ c := by
    rw [hcdef, Nat.add_comm 12 config.chunk_order]
    exact hoff
  have hstep1 : tmatch * 511 + ci + 1 ≤ config.num_chunks := by omega
  calc 0 + tmatch * (511 * c) + ci * c + co
      ≤ 0 + tmatch * (511 * c) + ci * c + c := by omega
    _ = (tmatch * 511 + ci + 1) * c := by ring
    _ ≤ config.num_chunks * c := Nat.mul_le_mul_right c hstep1
    _ = config.num_chunks * 2 ^ config.chunk_order * PAGE_SIZE := by
        rw [hcdef, pow_add]
        have h12 : (2 : Nat) ^ 12 = 4096 := by norm_num
        rw [h12]
        show config.num_chunks * (4096 * 2 ^ config.chunk_order) =
          config.num_chunks * 2 ^ config.chunk_order * 4096
        ring

set_option maxRecDepth 100000 in
theorem C9_capture_bound_witness :
    compute_capture_size
        { (devAfterAllocOne.per_trace_state.getD []).getD 0 zeroPerTrace with
          output_base := 536870912, output_mask_ptrs := 0 } ≤
      cfgOne.num_chunks * 2 ^ cfgOne.chunk_order * PAGE_SIZE :=
  C9_capture_bound capsAll happyEnv devOne cfgOne devAfterAllocOne 0 536870912 0 0
    (by decide) (by decide) (by decide) (by decide) (by decide) (by decide) (by decide)
    (by decide)

/-! ### C2: the allocated=false cleanliness invariant -/

/-- The part of invariant I1 the code actually maintains on a freed slot:
no chunks and no tables.  (The numeric fields are *not* cleared by
`x86_pt_free_buffer1`.) -/
def SlotClean (pt : PerTrace) : Prop :=
  pt.allocated = false → pt.chunks = [] ∧ pt.topas = []

/-- Every slot of the device's trace vector is clean. -/
def DevClean (dev : Device) : Prop :=
  ∀ pt ∈ dev.per_trace_state.getD [], SlotClean pt

theorem slotClean_zero : SlotClean zeroPerTrace := fun _ => ⟨rfl, rfl⟩

theorem slotClean_free1 (pt : PerTrace) : SlotClean (x86_pt_free_buffer1 pt) :=
  fun _ => ⟨rfl, rfl⟩

theorem slotClean_alloc_slot (config : BufferConfig) (pt : PerTrace) :
    SlotClean (alloc_slot_value config pt) := by
  intro hfalse
  have htrue : (alloc_slot_value config pt).allocated = true := rfl
  rw [htrue] at hfalse
  exact absurd hfalse (by decide)

theorem slotClean_getD (s : List PerTrace) (i : Nat) (h : ∀ pt ∈ s, SlotClean pt) :
    SlotClean (s.getD i zeroPerTrace) := by
  by_cases hi : i < s.length
  · have hg : s.getD i zeroPerTrace = s.get ⟨i, hi⟩ := by
      rw [List.getD_eq_getElem?_getD, List.getElem?_eq_getElem hi]
      rfl
    rw [hg]
    exact h _ (List.get_mem s i hi)
  · have hg : s.getD i zeroPerTrace = zeroPerTrace := by
      rw [List.getD_eq_getElem?_getD, List.getElem?_eq_none (by omega)]
      rfl
    rw [hg]
    exact slotClean_zero

theorem devClean_set (s : List PerTrace) (i : Nat) (v : PerTrace)
    (h : ∀ pt ∈ s, SlotClean pt) (hv : SlotClean v) :
    ∀ pt ∈ s.set i v, SlotClean pt := by
  intro pt hpt
  rcases List.mem_or_eq_of_mem_set hpt with h1 | h2
  · exact h pt h1
  · rw [h2]
    exact hv

theorem devClean_none (dev : Device) (hps : dev.per_trace_state = none) : DevClean dev := by
  intro pt hpt
  rw [hps] at hpt
  simp at hpt

theorem devClean_replicate (dev : Device) (k : Nat)
    (hps : dev.per_trace_state = some (List.replicate k zeroPerTrace)) : DevClean dev := by
  intro pt hpt
  rw [hps] at hpt
  simp only [Option.getD_some] at hpt
  rw [List.eq_of_mem_replicate hpt]
  exact slotClean_zero

theorem devClean_map (dev : Device) (f : List PerTrace → List PerTrace)
    (h : DevClean dev)
    (hf : ∀ s, (∀ pt ∈ s, SlotClean pt) → ∀ pt ∈ f s, SlotClean pt) :
    DevClean { dev with per_trace_state := dev.per_trace_state.map f } := by
  intro pt hpt
  have hred : ({ dev with per_trace_state := dev.per_trace_state.map f }).per_trace_state =
      dev.per_trace_state.map f := rfl
  rw [hred] at hpt
  cases hps : dev.per_trace_state with
  | none =>
    rw [hps] at hpt
    simp at hpt
  | some s =>
    rw [hps] at hpt
    simp only [Option.map_some', Option.getD_some] at hpt
    refine hf s ?_ pt hpt
    intro pt2 hpt2
    apply h
    rw [hps]
    exact hpt2

set_option maxHeartbeats 1000000 in
theorem devClean_alloc_trace (caps : IptConfig) (env : Env) (dev : Device)
    (cmdlen : Nat) (config : TraceConfigIo) (h : DevClean dev) :
    DevClean (ipt_alloc_trace caps env dev cmdlen config).2 := by
  unfold ipt_alloc_trace
  split
  · exact h
  split
  · exact h
  split
  · exact h
  split
  · exact h
  split
  · exact h
  split
  · exact h
  split
  · exact h
  split
  · exact h
  split
  · exact h
  split
  · exact devClean_none _ rfl
  · exact devClean_replicate _ config.num_traces rfl

theorem devClean_free_loop (l : List Nat) :
    ∀ s : List PerTrace, (∀ pt ∈ s, SlotClean pt) →
      ∀ pt ∈ l.foldl (fun s i =>
        let pt := s.getD i zeroPerTrace
        if pt.allocated then s.set i (x86_pt_free_buffer1 pt) else s) s,
      SlotClean pt := by
  induction l with
  | nil =>
    intro s hs
    exact hs
  | cons a l ih =>
    intro s hs
    rw [List.foldl_cons]
    apply ih
    by_cases ha : (s.getD a zeroPerTrace).allocated
    · have hred : (let pt := s.getD a zeroPerTrace
          if pt.allocated then s.set a (x86_pt_free_buffer1 pt) else s) =
          s.set a (x86_pt_free_buffer1 (s.getD a zeroPerTrace)) := by
        show (if (s.getD a zeroPerTrace).allocated then
            s.set a (x86_pt_free_buffer1 (s.getD a zeroPerTrace)) else s) = _
        rw [if_pos ha]
      rw [hred]
      exact devClean_set s a _ hs (slotClean_free1 _)
    · have hred : (let pt := s.getD a zeroPerTrace
          if pt.allocated then s.set a (x86_pt_free_buffer1 pt) else s) = s := by
        show (if (s.getD a zeroPerTrace).allocated then
            s.set a (x86_pt_free_buffer1 (s.getD a zeroPerTrace)) else s) = _
        rw [if_neg ha]
      rw [hred]
      exact hs

set_option maxHeartbeats 1000000 in
theorem devClean_free_trace (env : Env) (dev : Device) (h : DevClean dev) :
    DevClean (ipt_free_trace env dev).2 := by
  unfold ipt_free_trace
  dsimp only
  split
  · exact h
  split
  · exact h
  split
  · exact devClean_map dev _ h (fun s hs => devClean_free_loop _ _ h)
  · exact devClean_none _ rfl

set_option maxHeartbeats 1000000 in
theorem devClean_alloc_buffer (caps : IptConfig) (env : Env) (dev : Device)
    (config : BufferConfig) (h : DevClean dev) :
    DevClean (x86_pt_alloc_buffer caps env dev config).2.1 := by
  unfold x86_pt_alloc_buffer
  dsimp only
  split
  · exact h
  split
  · exact h
  split
  · exact h
  split
  · exact h
  split
  · exact h
  split
  · exact devClean_map dev _ h
      (fun s hs => devClean_set s _ _ hs (slotClean_alloc_slot _ _))
  · exact devClean_map dev _ h
      (fun s hs => devClean_set s _ _ hs (slotClean_free1 _))

set_option maxHeartbeats 1000000 in
theorem devClean_free_buffer (dev : Device) (descriptor : Nat) (h : DevClean dev) :
    DevClean (x86_pt_free_buffer dev descriptor).2 := by
  unfold x86_pt_free_buffer
  dsimp only
  split
  · exact h
  split
  · exact h
  split
  · exact h
  split
  · exact h
  · exact devClean_map dev _ h
      (fun s hs => devClean_set s _ _ hs (slotClean_free1 _))

theorem slotClean_set_regs (pt : PerTrace) (r : PtRegs) (hp : SlotClean pt) :
    SlotClean { pt with
      ctl := r.ctl
      status := r.status
      output_base := r.output_base
      output_mask_ptrs := r.output_mask_ptrs
      cr3_match := r.cr3_match
      addr_ranges := r.addr_ranges } := hp

theorem slotClean_set_assign (pt : PerTrace) (c : Nat) (hp : SlotClean pt) :
    SlotClean { pt with owner := c, assigned := true } := hp

theorem slotClean_set_unassign (pt : PerTrace) (hp : SlotClean pt) :
    SlotClean { pt with assigned := false, owner := 0 } := hp

set_option maxHeartbeats 1000000 in
theorem devClean_get_trace_data (env : Env) (dev : Device) (descriptor : Nat)
    (h : DevClean dev) :
    DevClean (x86_pt_get_trace_data env dev descriptor).2 := by
  unfold x86_pt_get_trace_data
  dsimp only
  split
  · exact h
  split
  · exact devClean_map dev _ h
      (fun s hs => devClean_set s _ _ hs
        (slotClean_set_regs (s.getD descriptor zeroPerTrace) (env.getDataRegs descriptor)
          (slotClean_getD s _ hs)))
  · exact h

theorem devClean_stage_loop (env : Env) (l : List Nat) :
    ∀ dev : Device, DevClean dev →
      (∀ dev', start_stage_loop env l dev = .ok dev' → DevClean dev') ∧
      (∀ st dev', start_stage_loop env l dev = .error (st, dev') → DevClean dev') := by
  induction l with
  | nil =>
    intro dev h
    constructor
    · intro dev' he
      have h2 : start_stage_loop env [] dev = .ok dev := rfl
      rw [h2] at he
      cases he
      exact h
    · intro st dev' he
      have h2 : start_stage_loop env [] dev = .ok dev := rfl
      rw [h2] at he
      exact Except.noConfusion he
  | cons cpu rest ih =>
    intro dev h
    unfold start_stage_loop
    cases hst : x86_pt_stage_trace_data env dev cpu
    case ok =>
      have hclean : DevClean { dev with per_trace_state := dev.per_trace_state.map (fun s =>
          s.set cpu { s.getD cpu zeroPerTrace with owner := cpu, assigned := true }) } :=
        devClean_map dev _ h
          (fun s hs => devClean_set s _ _ hs (slotClean_set_assign _ _ (slotClean_getD s _ hs)))
      exact ⟨fun dev' he => (ih _ hclean).1 dev' he,
        fun st dev' he => (ih _ hclean).2 st dev' he⟩
    all_goals
      exact ⟨fun dev' he => Except.noConfusion he,
        fun st dev' he => by cases he; exact h⟩

theorem devClean_collect_loop (env : Env) (l : List Nat) :
    ∀ dev : Device, DevClean dev →
      (∀ dev', stop_collect_loop env l dev = .ok dev' → DevClean dev') ∧
      (∀ st dev', stop_collect_loop env l dev = .error (st, dev') → DevClean dev') := by
  induction l with
  | nil =>
    intro dev h
    constructor
    · intro dev' he
      have h2 : stop_collect_loop env [] dev = .ok dev := rfl
      rw [h2] at he
      cases he
      exact h
    · intro st dev' he
      have h2 : stop_collect_loop env [] dev = .ok dev := rfl
      rw [h2] at he
      exact Except.noConfusion he
  | cons cpu rest ih =>
    intro dev h
    unfold stop_collect_loop
    have hdata := devClean_get_trace_data env dev cpu h
    cases hres : x86_pt_get_trace_data env dev cpu with
    | mk st d2 =>
      rw [hres] at hdata
      cases st
      case ok =>
        have hclean : DevClean { d2 with per_trace_state := d2.per_trace_state.map (fun s =>
            s.set cpu { s.getD cpu zeroPerTrace with assigned := false, owner := 0 }) } :=
          devClean_map d2 _ hdata
            (fun s hs => devClean_set s _ _ hs (slotClean_set_unassign _ (slotClean_getD s _ hs)))
        exact ⟨fun dev' he => (ih _ hclean).1 dev' he,
          fun st dev' he => (ih _ hclean).2 st dev' he⟩
      all_goals
        exact ⟨fun dev' he => Except.noConfusion he,
          fun st dev' he => by cases he; exact hdata⟩

set_option maxHeartbeats 1000000 in
theorem devClean_start (env : Env) (dev : Device) (h : DevClean dev) :
    DevClean (ipt_start env dev).2 := by
  unfold ipt_start
  dsimp only
  split
  · exact h
  split
  · exact h
  split
  · exact h
  · cases hloop : start_stage_loop env (List.range dev.num_traces) dev with
    | error e =>
      cases e with
      | mk st d2 =>
        exact (devClean_stage_loop env _ dev h).2 st d2 hloop
    | ok d2 =>
      have hclean := (devClean_stage_loop env _ dev h).1 d2 hloop
      show DevClean (if env.startResult ≠ ZxStatus.ok then (env.startResult, d2)
        else (ZxStatus.ok, { d2 with active := true })).2
      split
      · exact hclean
      · exact hclean

set_option maxHeartbeats 1000000 in
theorem devClean_stop (env : Env) (dev : Device) (h : DevClean dev) :
    DevClean (ipt_stop env dev).2 := by
  unfold ipt_stop
  dsimp only
  split
  · exact h
  split
  · exact h
  split
  · cases hloop : stop_collect_loop env (List.range dev.num_traces)
        { dev with active := false } with
    | error e =>
      cases e with
      | mk st d2 =>
        exact (devClean_collect_loop env _ { dev with active := false } h).2 st d2 hloop
    | ok d2 =>
      exact (devClean_collect_loop env _ { dev with active := false } h).1 d2 hloop
  · exact h

theorem devClean_alloc_buffer_io (caps : IptConfig) (env : Env) (dev : Device)
    (cmdlen replymax : Nat) (config : BufferConfig) (h : DevClean dev) :
    DevClean (ipt_alloc_buffer caps env dev cmdlen replymax config).2.1 := by
  unfold ipt_alloc_buffer
  split
  · exact h
  split
  · exact h
  · exact devClean_alloc_buffer caps env dev config h

theorem devClean_free_buffer_io (dev : Device) (cmdlen descriptor : Nat)
    (h : DevClean dev) :
    DevClean (ipt_free_buffer dev cmdlen descriptor).2 := by
  unfold ipt_free_buffer
  split
  · exact h
  · exact devClean_free_buffer dev descriptor h

set_option maxHeartbeats 2000000 in
theorem devClean_worker (caps : IptConfig) (env : Env) (dev : Device) (req : IoctlReq)
    (h : DevClean dev) : DevClean (insntrace_ioctl_worker caps env dev req).2.1 := by
  unfold insntrace_ioctl_worker
  split
  · exact h
  · cases req with
    | allocTrace cmdlen replymax config =>
      dsimp only
      split
      · exact h
      · have hop := devClean_alloc_trace caps env dev cmdlen config h
        cases hres : ipt_alloc_trace caps env dev cmdlen config with
        | mk st d2 =>
          rw [hres] at hop
          exact hop
    | freeTrace cmdlen replymax =>
      dsimp only
      split
      · exact h
      · have hop := devClean_free_trace env dev h
        cases hres : ipt_free_trace env dev with
        | mk st d2 =>
          rw [hres] at hop
          exact hop
    | getTraceConfig cmdlen replymax =>
      dsimp only
      split
      · exact h
      · cases hres : ipt_get_trace_config env dev replymax with
        | mk st oc =>
          cases oc
          · exact h
          · exact h
    | allocBuffer cmdlen replymax config =>
      dsimp only
      have hop := devClean_alloc_buffer_io caps env dev cmdlen replymax config h
      cases hres : ipt_alloc_buffer caps env dev cmdlen replymax config with
      | mk st rest =>
        cases rest with
        | mk d2 od =>
          rw [hres] at hop
          cases od
          · exact hop
          · exact hop
    | assignThreadBuffer cmdlen replymax descriptor =>
      dsimp only
      split
      · exact h
      split
      · exact h
      · exact h
    | releaseThreadBuffer cmdlen replymax descriptor =>
      dsimp only
      split
      · exact h
      split
      · exact h
      · exact h
    | getBufferConfig cmdlen replymax descriptor =>
      dsimp only
      cases hres : ipt_get_buffer_config dev cmdlen replymax descriptor with
      | mk st oc =>
        cases oc
        · exact h
        · exact h
    | getBufferInfo cmdlen replymax descriptor =>
      dsimp only
      cases hres : ipt_get_buffer_info dev cmdlen replymax descriptor with
      | mk st oc =>
        cases oc
        · exact h
        · exact h
    | getChunkHandle cmdlen replymax descriptor chunk_num =>
      dsimp only
      cases hres : ipt_get_chunk_handle env dev cmdlen replymax descriptor chunk_num with
      | mk st oc =>
        cases oc
        · exact h
        · exact h
    | freeBuffer cmdlen replymax descriptor =>
      dsimp only
      split
      · exact h
      · have hop := devClean_free_buffer_io dev cmdlen descriptor h
        cases hres : ipt_free_buffer dev cmdlen descriptor with
        | mk st d2 =>
          rw [hres] at hop
          exact hop
    | start cmdlen replymax =>
      dsimp only
      split
      · exact h
      · have hop := devClean_start env dev h
        cases hres : ipt_start env dev with
        | mk st d2 =>
          rw [hres] at hop
          exact hop
    | stop cmdlen replymax =>
      dsimp only
      split
      · exact h
      · have hop := devClean_stop env dev h
        cases hres : ipt_stop env dev with
        | mk st d2 =>
          rw [hres] at hop
          exact hop

/-- The device produced by the success path of `x86_pt_free_buffer`. -/
def free_slot_update (dev : Device) (d : Nat) : Device :=
  { dev with
    per_trace_state := dev.per_trace_state.map
      (fun s => s.set d (x86_pt_free_buffer1
        ((dev.per_trace_state.getD []).getD d zeroPerTrace))) }

theorem free_buffer_ok_slot (dev : Device) (d : Nat) (dev' : Device)
    (h : x86_pt_free_buffer dev d = (.ok, dev')) :
    ((dev'.per_trace_state.getD []).getD d zeroPerTrace).allocated = false ∧
    ((dev'.per_trace_state.getD []).getD d zeroPerTrace).chunks = [] ∧
    ((dev'.per_trace_state.getD []).getD d zeroPerTrace).topas = [] := by
  unfold x86_pt_free_buffer at h
  by_cases h1 : dev.active
  · rw [if_pos h1] at h
    simp at h
  · rw [if_neg h1] at h
    by_cases h2 : d ≥ dev.num_traces
    · rw [if_pos h2] at h
      simp at h
    · rw [if_neg h2] at h
      dsimp only at h
      by_cases h3 : !((dev.per_trace_state.getD []).getD d zeroPerTrace).allocated
      · rw [if_pos h3] at h
        simp at h
      · rw [if_neg h3] at h
        by_cases h4 : ((dev.per_trace_state.getD []).getD d zeroPerTrace).assigned
        · rw [if_pos h4] at h
          simp at h
        · rw [if_neg h4] at h
          have hdev : dev' = free_slot_update dev d := (congrArg Prod.snd h).symm
          rw [hdev]
          have hpts : (free_slot_update dev d).per_trace_state =
              dev.per_trace_state.map
                (fun s => s.set d (x86_pt_free_buffer1
                  ((dev.per_trace_state.getD []).getD d zeroPerTrace))) := rfl
          rw [hpts]
          cases hps : dev.per_trace_state with
          | none =>
            refine ⟨?_, ?_, ?_⟩ <;> simp [List.getD] <;> rfl
          | some s' =>
            simp only [Option.map_some', Option.getD_some]
            by_cases hd : d < s'.length
            · have hget : (s'.set d (x86_pt_free_buffer1
                  (s'.getD d zeroPerTrace))).getD d zeroPerTrace =
                  x86_pt_free_buffer1 (s'.getD d zeroPerTrace) := by
                rw [List.getD_eq_getElem?_getD, List.getElem?_set_self hd]
                rfl
              rw [hget]
              exact ⟨rfl, rfl, rfl⟩
            · have hget : (s'.set d (x86_pt_free_buffer1
                  (s'.getD d zeroPerTrace))).getD d zeroPerTrace =
                  zeroPerTrace := by
                rw [List.getD_eq_getElem?_getD, List.getElem?_eq_none (by
                  rw [List.length_set]
                  omega)]
                rfl
              rw [hget]
              exact ⟨rfl, rfl, rfl⟩

set_option maxRecDepth 100000 in
theorem C2_counterexample :
    (x86_pt_free_buffer devAfterAllocOne 0).1 = ZxStatus.ok ∧
    ((((x86_pt_free_buffer devAfterAllocOne 0).2.per_trace_state.getD []).getD 0
      zeroPerTrace).allocated = false) ∧
    ((((x86_pt_free_buffer devAfterAllocOne 0).2.per_trace_state.getD []).getD 0
      zeroPerTrace).num_chunks ≠ 0) ∧
    ((((x86_pt_free_buffer devAfterAllocOne 0).2.per_trace_state.getD []).getD 0
      zeroPerTrace).num_tables ≠ 0) := by
  refine ⟨by decide, by decide, by decide, by decide⟩

/-- C2 (amended): what every operation actually preserves is the weakened
invariant "an unallocated slot has no chunks and no ToPA tables"; and a
successful `free_buffer` leaves the freed slot unallocated with empty chunk
and table sequences — its `num_chunks`, `num_tables` and `chunk_order` are
not cleared. -/
theorem C2_clean_invariant :
    (∀ (caps : IptConfig) (env : Env) (dev : Device) (req : IoctlReq),
      DevClean dev → DevClean (insntrace_ioctl_worker caps env dev req).2.1) ∧
    (∀ (dev : Device) (d : Nat) (dev' : Device),
      x86_pt_free_buffer dev d = (.ok, dev') →
      ((dev'.per_trace_state.getD []).getD d zeroPerTrace).allocated = false ∧
      ((dev'.per_trace_state.getD []).getD d zeroPerTrace).chunks = [] ∧
      ((dev'.per_trace_state.getD []).getD d zeroPerTrace).topas = []) :=
  ⟨fun caps env dev req h => devClean_worker caps env dev req h,
   fun dev d dev' h => free_buffer_ok_slot dev d dev' h⟩

set_option maxRecDepth 100000 in
theorem C2_clean_invariant_witness :
    DevClean (insntrace_ioctl_worker capsAll happyEnv devAfterAllocOne
      (.freeBuffer sizeof_descriptor 0 0)).2.1 ∧
    ((((x86_pt_free_buffer devAfterAllocOne 0).2.per_trace_state.getD []).getD 0
      zeroPerTrace).allocated = false ∧
     (((x86_pt_free_buffer devAfterAllocOne 0).2.per_trace_state.getD []).getD 0
      zeroPerTrace).chunks = [] ∧
     (((x86_pt_free_buffer devAfterAllocOne 0).2.per_trace_state.getD []).getD 0
      zeroPerTrace).topas = []) :=
  ⟨C2_clean_invariant.1 capsAll happyEnv devAfterAllocOne (.freeBuffer sizeof_descriptor 0 0)
      (by unfold DevClean SlotClean; decide),
   C2_clean_invariant.2 devAfterAllocOne 0 (x86_pt_free_buffer devAfterAllocOne 0).2
      (by decide)⟩

/-! ### C7: failing preconditions and state preservation -/

set_option maxRecDepth 100000 in
theorem C7_counterexample :
    devAfterAllocOne.per_trace_state ≠ none ∧
    (insntrace_ioctl_worker capsUnsupported happyEnv devAfterAllocOne
      (.allocTrace sizeof_trace_config 0 ⟨IPT_MODE_CPUS, 4⟩)).1 = ZxStatus.notSupported ∧
    ZxStatus.notSupported ≠ ZxStatus.badState ∧
    ZxStatus.notSupported ≠ ZxStatus.invalidArgs := by
  refine ⟨by decide, by decide, by decide, by decide⟩

theorem worker_gate_badstate (caps : IptConfig) (env : Env) (dev : Device)
    (req : IoctlReq) (hna : req.isAllocTrace = false)
    (hnone : dev.per_trace_state = none) :
    insntrace_ioctl_worker caps env dev req = (.badState, dev, .empty) := by
  unfold insntrace_ioctl_worker
  have hc : (!req.isAllocTrace) = true ∧ dev.per_trace_state = none := by
    constructor
    · rw [hna]
      rfl
    · exact hnone
  rw [if_pos hc]

theorem worker_alloc_trace_present (caps : IptConfig) (env : Env) (dev : Device)
    (cmdlen : Nat) (config : TraceConfigIo)
    (hs : caps.supported = true) (ht : caps.output_topa = true)
    (hp : dev.per_trace_state ≠ none) :
    insntrace_ioctl_worker caps env dev (.allocTrace cmdlen 0 config) =
      (.badState, dev, .empty) := by
  have hop : ipt_alloc_trace caps env dev cmdlen config = (.badState, dev) := by
    unfold ipt_alloc_trace
    rw [hs, ht]
    rw [if_neg (by decide)]
    rw [if_neg (by decide)]
    rw [if_pos hp]
  unfold insntrace_ioctl_worker
  rw [if_neg (by rintro ⟨h1, h2⟩; exact hp h2)]
  dsimp only
  rw [if_neg (by decide)]
  rw [hop]

theorem worker_free_trace_active (caps : IptConfig) (env : Env) (dev : Device)
    (hact : dev.active = true) (hp : dev.per_trace_state ≠ none) :
    insntrace_ioctl_worker caps env dev (.freeTrace 0 0) = (.badState, dev, .empty) := by
  have hop : ipt_free_trace env dev = (.badState, dev) := by
    unfold ipt_free_trace
    rw [if_pos hact]
  unfold insntrace_ioctl_worker
  rw [if_neg (by rintro ⟨h1, h2⟩; exact hp h2)]
  dsimp only
  rw [if_neg (by decide)]
  rw [hop]

theorem worker_free_trace_assigned (caps : IptConfig) (env : Env) (dev : Device)
    (hact : dev.active = false) (hp : dev.per_trace_state ≠ none)
    (hassigned : ((List.range dev.num_traces).any (fun i =>
      ((dev.per_trace_state.getD []).getD i zeroPerTrace).assigned)) = true) :
    insntrace_ioctl_worker caps env dev (.freeTrace 0 0) = (.badState, dev, .empty) := by
  have hop : ipt_free_trace env dev = (.badState, dev) := by
    unfold ipt_free_trace
    rw [if_neg (by rw [hact]; decide)]
    dsimp only
    rw [if_pos hassigned]
  unfold insntrace_ioctl_worker
  rw [if_neg (by rintro ⟨h1, h2⟩; exact hp h2)]
  dsimp only
  rw [if_neg (by decide)]
  rw [hop]

theorem free_buffer_failure_unchanged (dev : Device) (d : Nat) (st : ZxStatus)
    (dev' : Device) (h : x86_pt_free_buffer dev d = (st, dev')) (hst : st ≠ .ok) :
    dev' = dev ∧ (st = .badState ∨ st = .invalidArgs) := by
  unfold x86_pt_free_buffer at h
  split at h
  · cases h
    exact ⟨rfl, .inl rfl⟩
  split at h
  · cases h
    exact ⟨rfl, .inr rfl⟩
  dsimp only at h
  split at h
  · cases h
    exact ⟨rfl, .inr rfl⟩
  split at h
  · cases h
    exact ⟨rfl, .inl rfl⟩
  · cases h
    exact absurd rfl hst

theorem worker_start_active (caps : IptConfig) (env : Env) (dev : Device)
    (hact : dev.active = true) (hp : dev.per_trace_state ≠ none) :
    insntrace_ioctl_worker caps env dev (.start 0 0) = (.badState, dev, .empty) := by
  have hop : ipt_start env dev = (.badState, dev) := by
    unfold ipt_start
    rw [if_pos hact]
  unfold insntrace_ioctl_worker
  rw [if_neg (by rintro ⟨h1, h2⟩; exact hp h2)]
  dsimp only
  rw [if_neg (by decide)]
  rw [hop]

theorem worker_stop_inactive (caps : IptConfig) (env : Env) (dev : Device)
    (hact : dev.active = false) (hp : dev.per_trace_state ≠ none) :
    insntrace_ioctl_worker caps env dev (.stop 0 0) = (.badState, dev, .empty) := by
  have hop : ipt_stop env dev = (.badState, dev) := by
    unfold ipt_stop
    rw [if_pos (by rw [hact]; rfl)]
  unfold insntrace_ioctl_worker
  rw [if_neg (by rintro ⟨h1, h2⟩; exact hp h2)]
  dsimp only
  rw [if_neg (by decide)]
  rw [hop]

theorem worker_start_bad_mode (caps : IptConfig) (env : Env) (dev : Device)
    (hact : dev.active = false) (hmode : dev.mode ≠ IPT_MODE_CPUS)
    (hp : dev.per_trace_state ≠ none) :
    insntrace_ioctl_worker caps env dev (.start 0 0) = (.badState, dev, .empty) := by
  have hop : ipt_start env dev = (.badState, dev) := by
    unfold ipt_start
    rw [if_neg (by rw [hact]; decide)]
    rw [if_pos hmode]
  unfold insntrace_ioctl_worker
  rw [if_neg (by rintro ⟨h1, h2⟩; exact hp h2)]
  dsimp only
  rw [if_neg (by decide)]
  rw [hop]

theorem worker_start_bad_slots (caps : IptConfig) (env : Env) (dev : Device)
    (hact : dev.active = false) (hmode : dev.mode = IPT_MODE_CPUS)
    (hp : dev.per_trace_state ≠ none)
    (hslots : (!(List.range dev.num_traces).all (fun cpu =>
      ((dev.per_trace_state.getD []).getD cpu zeroPerTrace).allocated &&
      !((dev.per_trace_state.getD []).getD cpu zeroPerTrace).assigned)) = true) :
    insntrace_ioctl_worker caps env dev (.start 0 0) = (.badState, dev, .empty) := by
  have hop : ipt_start env dev = (.badState, dev) := by
    unfold ipt_start
    rw [if_neg (by rw [hact]; decide)]
    rw [if_neg (fun h => h hmode)]
    dsimp only
    rw [if_pos hslots]
  unfold insntrace_ioctl_worker
  rw [if_neg (by rintro ⟨h1, h2⟩; exact hp h2)]
  dsimp only
  rw [if_neg (by decide)]
  rw [hop]

theorem worker_get_buffer_info_active (caps : IptConfig) (env : Env) (dev : Device)
    (cmdlen replymax d : Nat) (hp : dev.per_trace_state ≠ none)
    (hcmd : cmdlen = sizeof_descriptor) (hreply : sizeof_buffer_info ≤ replymax)
    (hmode : dev.mode = IPT_MODE_CPUS) (hact : dev.active = true) :
    insntrace_ioctl_worker caps env dev (.getBufferInfo cmdlen replymax d) =
      (.badState, dev, .empty) := by
  have hop : ipt_get_buffer_info dev cmdlen replymax d = (.badState, none) := by
    unfold ipt_get_buffer_info
    rw [if_neg (by rw [hcmd]; exact fun h => h rfl)]
    rw [if_neg (by omega)]
    rw [if_pos ⟨hmode, hact⟩]
  unfold insntrace_ioctl_worker
  rw [if_neg (by rintro ⟨h1, h2⟩; exact hp h2)]
  dsimp only
  rw [hop]

theorem worker_get_buffer_config_gates (caps : IptConfig) (env : Env) (dev : Device)
    (cmdlen replymax d : Nat) (hp : dev.per_trace_state ≠ none)
    (hcmd : cmdlen = sizeof_descriptor) (hreply : sizeof_buffer_config ≤ replymax)
    (hgate : d ≥ dev.num_traces ∨
      ((dev.per_trace_state.getD []).getD d zeroPerTrace).allocated = false) :
    insntrace_ioctl_worker caps env dev (.getBufferConfig cmdlen replymax d) =
      (.invalidArgs, dev, .empty) := by
  have hop : ipt_get_buffer_config dev cmdlen replymax d = (.invalidArgs, none) := by
    unfold ipt_get_buffer_config
    rw [if_neg (by rw [hcmd]; exact fun h => h rfl)]
    rw [if_neg (by omega)]
    dsimp only
    by_cases hd : d ≥ dev.num_traces
    · rw [if_pos hd]
    · rw [if_neg hd]
      rcases hgate with hg | hg
      · exact absurd hg hd
      · rw [if_pos (by rw [hg]; rfl)]
  unfold insntrace_ioctl_worker
  rw [if_neg (by rintro ⟨h1, h2⟩; exact hp h2)]
  dsimp only
  rw [hop]

theorem worker_get_buffer_info_gates (caps : IptConfig) (env : Env) (dev : Device)
    (cmdlen replymax d : Nat) (hp : dev.per_trace_state ≠ none)
    (hcmd : cmdlen = sizeof_descriptor) (hreply : sizeof_buffer_info ≤ replymax)
    (hma : ¬(dev.mode = IPT_MODE_CPUS ∧ dev.active = true))
    (hgate : d ≥ dev.num_traces ∨
      ((dev.per_trace_state.getD []).getD d zeroPerTrace).allocated = false) :
    insntrace_ioctl_worker caps env dev (.getBufferInfo cmdlen replymax d) =
      (.invalidArgs, dev, .empty) := by
  have hop : ipt_get_buffer_info dev cmdlen replymax d = (.invalidArgs, none) := by
    unfold ipt_get_buffer_info
    rw [if_neg (by rw [hcmd]; exact fun h => h rfl)]
    rw [if_neg (by omega)]
    rw [if_neg hma]
    dsimp only
    by_cases hd : d ≥ dev.num_traces
    · rw [if_pos hd]
    · rw [if_neg hd]
      rcases hgate with hg | hg
      · exact absurd hg hd
      · rw [if_pos (by rw [hg]; rfl)]
  unfold insntrace_ioctl_worker
  rw [if_neg (by rintro ⟨h1, h2⟩; exact hp h2)]
  dsimp only
  rw [hop]

theorem worker_get_chunk_handle_gates (caps : IptConfig) (env : Env) (dev : Device)
    (cmdlen replymax d chunk_num : Nat) (hp : dev.per_trace_state ≠ none)
    (hcmd : cmdlen = sizeof_chunk_handle_req) (hreply : sizeof_handle ≤ replymax)
    (hgate : d ≥ dev.num_traces ∨
      ((dev.per_trace_state.getD []).getD d zeroPerTrace).allocated = false ∨
      chunk_num ≥ ((dev.per_trace_state.getD []).getD d zeroPerTrace).num_chunks) :
    insntrace_ioctl_worker caps env dev (.getChunkHandle cmdlen replymax d chunk_num) =
      (.invalidArgs, dev, .empty) := by
  have hop : ipt_get_chunk_handle env dev cmdlen replymax d chunk_num =
      (.invalidArgs, none) := by
    unfold ipt_get_chunk_handle
    rw [if_neg (by rw [hcmd]; exact fun h => h rfl)]
    rw [if_neg (by omega)]
    dsimp only
    rcases hgate with hg | hg | hg
    · rw [if_pos hg]
    · by_cases hd : d ≥ dev.num_traces
      · rw [if_pos hd]
      · rw [if_neg hd, if_pos (by rw [hg]; rfl)]
    · by_cases hd : d ≥ dev.num_traces
      · rw [if_pos hd]
      · rw [if_neg hd]
        by_cases hal : ((dev.per_trace_state.getD []).getD d zeroPerTrace).allocated = false
        · rw [if_pos (by rw [hal]; rfl)]
        · have htrue : ((dev.per_trace_state.getD []).getD d
              zeroPerTrace).allocated = true := by
            cases hb : ((dev.per_trace_state.getD []).getD d zeroPerTrace).allocated
            · exact absurd hb hal
            · rfl
          rw [if_neg (by rw [htrue]; decide), if_pos hg]
  unfold insntrace_ioctl_worker
  rw [if_neg (by rintro ⟨h1, h2⟩; exact hp h2)]
  dsimp only
  rw [hop]

/-- C7 (amended): operations hit with an unmet lifecycle precondition leave
the device (including every slot) unchanged, and — except for `alloc_trace`,
whose capability checks run first and can return `NotSupported` — report
`BadState` or `InvalidArgs`: any non-`alloc_trace` request before a trace is
allocated, `alloc_trace` with a trace already present (on capable hardware),
`free_trace` while active or with an assigned slot, `free_buffer` with any
failed gate, `start` while active or in a non-cpu mode or with an
unallocated/assigned slot, `stop` while inactive, `get_buffer_info` while
active in cpu-mode, and the descriptor/allocated/chunk-number gates of
`get_buffer_config`, `get_buffer_info` and `get_chunk_handle`. -/
theorem C7_state_preconditions :
    (∀ (caps : IptConfig) (env : Env) (dev : Device) (req : IoctlReq),
      req.isAllocTrace = false → dev.per_trace_state = none →
      insntrace_ioctl_worker caps env dev req = (.badState, dev, .empty)) ∧
    (∀ (caps : IptConfig) (env : Env) (dev : Device) (cmdlen : Nat)
      (config : TraceConfigIo),
      caps.supported = true → caps.output_topa = true → dev.per_trace_state ≠ none →
      insntrace_ioctl_worker caps env dev (.allocTrace cmdlen 0 config) =
        (.badState, dev, .empty)) ∧
    (∀ (caps : IptConfig) (env : Env) (dev : Device),
      dev.active = true → dev.per_trace_state ≠ none →
      insntrace_ioctl_worker caps env dev (.freeTrace 0 0) = (.badState, dev, .empty)) ∧
    (∀ (caps : IptConfig) (env : Env) (dev : Device),
      dev.active = false → dev.per_trace_state ≠ none →
      ((List.range dev.num_traces).any (fun i =>
        ((dev.per_trace_state.getD []).getD i zeroPerTrace).assigned)) = true →
      insntrace_ioctl_worker caps env dev (.freeTrace 0 0) = (.badState, dev, .empty)) ∧
    (∀ (dev : Device) (d : Nat) (st : ZxStatus) (dev' : Device),
      x86_pt_free_buffer dev d = (st, dev') → st ≠ .ok →
      dev' = dev ∧ (st = .badState ∨ st = .invalidArgs)) ∧
    (∀ (caps : IptConfig) (env : Env) (dev : Device),
      dev.active = true → dev.per_trace_state ≠ none →
      insntrace_ioctl_worker caps env dev (.start 0 0) = (.badState, dev, .empty)) ∧
    (∀ (caps : IptConfig) (env : Env) (dev : Device),
      dev.active = false → dev.per_trace_state ≠ none →
      insntrace_ioctl_worker caps env dev (.stop 0 0) = (.badState, dev, .empty)) ∧
    (∀ (caps : IptConfig) (env : Env) (dev : Device),
      dev.active = false → dev.mode ≠ IPT_MODE_CPUS → dev.per_trace_state ≠ none →
      insntrace_ioctl_worker caps env dev (.start 0 0) = (.badState, dev, .empty)) ∧
    (∀ (caps : IptConfig) (env : Env) (dev : Device),
      dev.active = false → dev.mode = IPT_MODE_CPUS → dev.per_trace_state ≠ none →
      (!(List.range dev.num_traces).all (fun cpu =>
        ((dev.per_trace_state.getD []).getD cpu zeroPerTrace).allocated &&
        !((dev.per_trace_state.getD []).getD cpu zeroPerTrace).assigned)) = true →
      insntrace_ioctl_worker caps env dev (.start 0 0) = (.badState, dev, .empty)) ∧
    (∀ (caps : IptConfig) (env : Env) (dev : Device) (cmdlen replymax d : Nat),
      dev.per_trace_state ≠ none → cmdlen = sizeof_descriptor →
      sizeof_buffer_info ≤ replymax → dev.mode = IPT_MODE_CPUS → dev.active = true →
      insntrace_ioctl_worker caps env dev (.getBufferInfo cmdlen replymax d) =
        (.badState, dev, .empty)) ∧
    (∀ (caps : IptConfig) (env : Env) (dev : Device) (cmdlen replymax d : Nat),
      dev.per_trace_state ≠ none → cmdlen = sizeof_descriptor →
      sizeof_buffer_config ≤ replymax →
      (d ≥ dev.num_traces ∨
        ((dev.per_trace_state.getD []).getD d zeroPerTrace).allocated = false) →
      insntrace_ioctl_worker caps env dev (.getBufferConfig cmdlen replymax d) =
        (.invalidArgs, dev, .empty)) ∧
    (∀ (caps : IptConfig) (env : Env) (dev : Device) (cmdlen replymax d : Nat),
      dev.per_trace_state ≠ none → cmdlen = sizeof_descriptor →
      sizeof_buffer_info ≤ replymax → ¬(dev.mode = IPT_MODE_CPUS ∧ dev.active = true) →
      (d ≥ dev.num_traces ∨
        ((dev.per_trace_state.getD []).getD d zeroPerTrace).allocated = false) →
      insntrace_ioctl_worker caps env dev (.getBufferInfo cmdlen replymax d) =
        (.invalidArgs, dev, .empty)) ∧
    (∀ (caps : IptConfig) (env : Env) (dev : Device) (cmdlen replymax d chunk_num : Nat),
      dev.per_trace_state ≠ none → cmdlen = sizeof_chunk_handle_req →
      sizeof_handle ≤ replymax →
      (d ≥ dev.num_traces ∨
        ((dev.per_trace_state.getD []).getD d zeroPerTrace).allocated = false ∨
        chunk_num ≥ ((dev.per_trace_state.getD []).getD d zeroPerTrace).num_chunks) →
      insntrace_ioctl_worker caps env dev (.getChunkHandle cmdlen replymax d chunk_num) =
        (.invalidArgs, dev, .empty)) :=
  ⟨worker_gate_badstate, worker_alloc_trace_present, worker_free_trace_active,
   worker_free_trace_assigned, free_buffer_failure_unchanged, worker_start_active,
   worker_stop_inactive, worker_start_bad_mode, worker_start_bad_slots,
   worker_get_buffer_info_active, worker_get_buffer_config_gates,
   worker_get_buffer_info_gates, worker_get_chunk_handle_gates⟩

set_option maxRecDepth 100000 in
theorem C7_state_preconditions_witness :
    insntrace_ioctl_worker capsAll happyEnv devFresh (.stop 0 0) =
      (.badState, devFresh, .empty) ∧
    insntrace_ioctl_worker capsAll happyEnv devOne (.allocTrace 8 0 ⟨0, 1⟩) =
      (.badState, devOne, .empty) ∧
    (devOne = devOne ∧ (ZxStatus.invalidArgs = ZxStatus.badState ∨
      ZxStatus.invalidArgs = ZxStatus.invalidArgs)) ∧
    insntrace_ioctl_worker capsAll happyEnv devOne (.stop 0 0) =
      (.badState, devOne, .empty) ∧
    insntrace_ioctl_worker capsAll happyEnv devOne (.start 0 0) =
      (.badState, devOne, .empty) ∧
    insntrace_ioctl_worker capsAll happyEnv { devOne with active := true }
      (.getBufferInfo sizeof_descriptor sizeof_buffer_info 0) =
      (.badState, { devOne with active := true }, .empty) ∧
    insntrace_ioctl_worker capsAll happyEnv devOne
      (.getBufferConfig sizeof_descriptor sizeof_buffer_config 0) =
      (.invalidArgs, devOne, .empty) ∧
    insntrace_ioctl_worker capsAll happyEnv devOne
      (.getBufferInfo sizeof_descriptor sizeof_buffer_info 0) =
      (.invalidArgs, devOne, .empty) ∧
    insntrace_ioctl_worker capsAll happyEnv devOne
      (.getChunkHandle sizeof_chunk_handle_req sizeof_handle 0 0) =
      (.invalidArgs, devOne, .empty) :=
  ⟨C7_state_preconditions.1 capsAll happyEnv devFresh (.stop 0 0) (by decide) (by decide),
   C7_state_preconditions.2.1 capsAll happyEnv devOne 8 ⟨0, 1⟩ (by decide) (by decide)
     (by decide),
   C7_state_preconditions.2.2.2.2.1 devOne 0 ZxStatus.invalidArgs devOne (by decide)
     (by decide),
   C7_state_preconditions.2.2.2.2.2.2.1 capsAll happyEnv devOne (by decide) (by decide),
   C7_state_preconditions.2.2.2.2.2.2.2.2.1 capsAll happyEnv devOne (by decide)
     (by decide) (by decide) (by decide),
   C7_state_preconditions.2.2.2.2.2.2.2.2.2.1 capsAll happyEnv
     { devOne with active := true } sizeof_descriptor sizeof_buffer_info 0 (by decide)
     (by decide) (by decide) (by decide) (by decide),
   C7_state_preconditions.2.2.2.2.2.2.2.2.2.2.1 capsAll happyEnv devOne
     sizeof_descriptor sizeof_buffer_config 0 (by decide) (by decide) (by decide)
     (Or.inr (by decide)),
   C7_state_preconditions.2.2.2.2.2.2.2.2.2.2.2.1 capsAll happyEnv devOne
     sizeof_descriptor sizeof_buffer_info 0 (by decide) (by decide) (by decide)
     (by decide) (Or.inr (by decide)),
   C7_state_preconditions.2.2.2.2.2.2.2.2.2.2.2.2 capsAll happyEnv devOne
     sizeof_chunk_handle_req sizeof_handle 0 0 (by decide) (by decide) (by decide)
     (Or.inr (Or.inl (by decide)))⟩

end Insntrace
